import Mathlib

/-!
Verification development for the eBPF+ WCET analyzer (`runtime-verifier`).

The Python sources are shallowly embedded:

* `main.py` / `bpf.py`   — instruction decoding (`Instruction`), field masks;
* `dfs.py`               — latency catalog `BPF_INFO`, `instr_to_runtime`,
                           the plain DFS `dfs_blocks`;
* `mem_access.py`        — symbolic state (`SymbolicVal`, `RegisterState`),
                           Z3-level scanning (`_scan_block` and helpers),
                           the cache model `_est_cache_latency_z3`, and the
                           memory-aware DFS `dfs_blocks_with_mem`;
* `main.py`              — the CFG builder `get_blocks_tree`.

Machine integers are embedded as `Nat`/`Int` with explicit `% 2^w` where the
Python code masks; the Z3 solver is an abstract oracle
`List Z3Bool → CheckRes` (push/pop become scoped list extension); Python
exceptions become explicit error results.
-/

/-! ## String helpers

The Python code dispatches on opcode-name strings with `startswith`,
`endswith`, `in`, `split("_")` and `replace("32","")`.  We implement these
over `String.data` (lists of characters) so that concrete evaluations reduce
in the kernel.
-/

/-- `p.data` is a prefix of `s.data`: Python `s.startswith(p)`. -/
def strStartsWith (s p : String) : Bool := p.data.isPrefixOf s.data

/-- Python `s.endswith(p)`. -/
def strEndsWith (s p : String) : Bool := p.data.reverse.isPrefixOf s.data.reverse

/-- `t` occurs contiguously in `s`. -/
def listIsInfixOf (t s : List Char) : Bool :=
  match s with
  | [] => t.isEmpty
  | _ :: rest => t.isPrefixOf s || listIsInfixOf t rest

/-- Python `t in s` (substring test). -/
def strContains (s t : String) : Bool := listIsInfixOf t.data s.data

/-- Python `s.split("_")`. -/
def strSplitUnderscore (s : String) : List String :=
  (s.data.splitOn '_').map (fun cs => ⟨cs⟩)

/-- Remove every (non-overlapping, left-to-right) occurrence of `"32"`:
Python `s.replace("32", "")`. -/
def listRemove32 : List Char → List Char
  | '3' :: '2' :: rest => listRemove32 rest
  | c :: rest => c :: listRemove32 rest
  | [] => []

/-- Python `s.replace("32", "")`. -/
def strRemove32 (s : String) : String := ⟨listRemove32 s.data⟩

/-! ## Decoder (`main.py` class `Instruction`, `bpf.py` class `BpfInstruction`)

An 8-byte little-endian word `w < 2^64` is split with the masks/shifts of
`Shift`/`Mask`: opcode = bits 0..7, dst = bits 8..11, src = bits 12..15,
offset = bits 16..31 (sign-extended to `Int`), imm = bits 32..63
(sign-extended to `Int`).  `(w &&& (m <<< k)) >>> k` is written
`w / 2^k % 2^j`.
-/

structure Instruction where
  opcode : Nat
  dst : Nat
  src : Nat
  off : Int
  imm : Int
deriving DecidableEq, Repr

instance : Inhabited Instruction := ⟨⟨0, 0, 0, 0, 0⟩⟩

/-- `_get_off` sign extension: `if org_off > 0x7FFF: return org_off - 0xFFFF - 1`. -/
def signed16 (x : Nat) : Int :=
  if x > 0x7FFF then (x : Int) - 0xFFFF - 1 else (x : Int)

/-- `_get_imm` sign extension: `if org_imm > 0x7FFFFFFF: return org_imm - 0xFFFFFFFF - 1`. -/
def signed32 (x : Nat) : Int :=
  if x > 0x7FFFFFFF then (x : Int) - 0xFFFFFFFF - 1 else (x : Int)

/-- `Instruction.__init__` field extraction from the 64-bit word. -/
def decodeWord (w : Nat) : Instruction :=
  { opcode := w % 2 ^ 8
  , dst := w / 2 ^ 8 % 2 ^ 4
  , src := w / 2 ^ 12 % 2 ^ 4
  , off := signed16 (w / 2 ^ 16 % 2 ^ 16)
  , imm := signed32 (w / 2 ^ 32 % 2 ^ 32) }

/-- Modelled from the spec: the repository has no instruction assembler under
`src/` (the test generators emit C, not byte-code); §8 of the spec states the
round-trip property "decoding the opcode's fields and reassembling them
yields the original 8-byte word bit-for-bit" against the §6 field layout
(opcode at bit 0, dst at bit 8, src at bit 12, 16-bit offset at bit 16,
32-bit immediate at bit 32).  The signed fields re-enter the word modulo
their width. -/
def assembleWord (i : Instruction) : Nat :=
  i.opcode + i.dst * 2 ^ 8 + i.src * 2 ^ 12
    + (i.off % 2 ^ 16).toNat * 2 ^ 16 + (i.imm % 2 ^ 32).toNat * 2 ^ 32

theorem signed16_mod (x : Nat) (h : x < 2 ^ 16) :
    (signed16 x % 2 ^ 16).toNat = x := by
  unfold signed16
  split <;> omega

theorem signed32_mod (x : Nat) (h : x < 2 ^ 32) :
    (signed32 x % 2 ^ 32).toNat = x := by
  unfold signed32
  split <;> omega

/-- **C8.** For every 8-byte instruction word, decoding it into opcode, dst,
src, sign-extended 16-bit offset and sign-extended 32-bit immediate and
reassembling those fields yields the original word bit-for-bit. -/
theorem c8_decode_assemble_roundtrip (w : Nat) (h : w < 2 ^ 64) :
    assembleWord (decodeWord w) = w := by
  unfold assembleWord decodeWord
  simp only
  rw [signed16_mod _ (Nat.mod_lt _ (by norm_num)),
      signed32_mod _ (Nat.mod_lt _ (by norm_num))]
  omega

/-- Witness for C8 at the concrete word `0xfffef001020304b7`
(a `MOV64_K` with negative offset and large immediate). -/
theorem c8_decode_assemble_roundtrip_witness :
    0xfffef001020304b7 < 2 ^ 64 ∧
      assembleWord (decodeWord 0xfffef001020304b7) = 0xfffef001020304b7 :=
  ⟨by norm_num, c8_decode_assemble_roundtrip 0xfffef001020304b7 (by norm_num)⟩

/-! ## Opcode constants (`bpf.py` / `main.py`: `BpfClass`, `BpfS`, `BpfSize`,
`BpfCode`, `BpfMode`) -/

namespace BpfClass

def LD : Nat := 0x0
def LDX : Nat := 0x1
def ST : Nat := 0x2
def STX : Nat := 0x3
def ALU : Nat := 0x4
def JMP : Nat := 0x5
def JMP32 : Nat := 0x6
def ALU64 : Nat := 0x7

end BpfClass

namespace BpfS

def K : Nat := 0x0 <<< 3
def X : Nat := 0x1 <<< 3

end BpfS

namespace BpfSize

def W : Nat := 0x00 <<< 3
def H : Nat := 0x01 <<< 3
def B : Nat := 0x02 <<< 3
def DW : Nat := 0x03 <<< 3

end BpfSize

namespace BpfCode.ALU

def ADD : Nat := 0x0 <<< 4
def SUB : Nat := 0x1 <<< 4
def MUL : Nat := 0x2 <<< 4
def DIV : Nat := 0x3 <<< 4
def OR : Nat := 0x4 <<< 4
def AND : Nat := 0x5 <<< 4
def LSH : Nat := 0x6 <<< 4
def RSH : Nat := 0x7 <<< 4
def NEG : Nat := 0x8 <<< 4
def MOD : Nat := 0x9 <<< 4
def XOR : Nat := 0xA <<< 4
def MOV : Nat := 0xB <<< 4
def ARSH : Nat := 0xC <<< 4
def END : Nat := 0xD <<< 4

end BpfCode.ALU

namespace BpfCode.JMP

def JA : Nat := 0x0 <<< 4
def JEQ : Nat := 0x1 <<< 4
def JGT : Nat := 0x2 <<< 4
def JGE : Nat := 0x3 <<< 4
def JSET : Nat := 0x4 <<< 4
def JNE : Nat := 0x5 <<< 4
def JSGT : Nat := 0x6 <<< 4
def JSGE : Nat := 0x7 <<< 4
def CALL : Nat := 0x8 <<< 4
def EXIT : Nat := 0x9 <<< 4
def JLT : Nat := 0xA <<< 4
def JLE : Nat := 0xB <<< 4
def JSLT : Nat := 0xC <<< 4
def JSLE : Nat := 0xD <<< 4

end BpfCode.JMP

namespace BpfMode

def IMM : Nat := 0x0 <<< 5
def ABS : Nat := 0x1 <<< 5
def IND : Nat := 0x2 <<< 5
def MEM : Nat := 0x3 <<< 5
def MEMSX : Nat := 0x4 <<< 5
def FMEM : Nat := 0x5 <<< 5
def ATOMIC : Nat := 0x6 <<< 5

end BpfMode

def BPF_ATOMIC_OP_MASK : Nat := 0x0F
def BPF_FETCH : Nat := 0x10
def ATOMIC_ADD : Nat := 0x0
def ATOMIC_AND : Nat := 0x1
def ATOMIC_OR : Nat := 0x2
def ATOMIC_XOR : Nat := 0x3
def ATOMIC_XCHG : Nat := 0xE
def ATOMIC_CMPXCHG : Nat := 0xF

/-! ## Latency catalogs

`OpInfo` mirrors `dfs.py` (`name`, `latency: Optional[int]`, where `None`
contributes zero to the base cost).  `BPF_INFO` transcribes the dictionary of
`dfs.py` lines 24-268, which is the table `instr_to_runtime` and
`mem_access.py` actually import (it differs from the same-named table in
`bpf.py`, e.g. `CALL` has latency `None` here).  -/

structure OpInfo where
  name : String
  latency : Option Nat
deriving DecidableEq, Repr

def BPF_INFO_1 : List (Nat × OpInfo) := [
  (BpfCode.ALU.ADD ||| BpfS.K ||| BpfClass.ALU, ⟨"ADD_K", some 5⟩),
  (BpfCode.ALU.ADD ||| BpfS.X ||| BpfClass.ALU, ⟨"ADD_X", some 1⟩),
  (BpfCode.ALU.SUB ||| BpfS.K ||| BpfClass.ALU, ⟨"SUB_K", some 5⟩),
  (BpfCode.ALU.SUB ||| BpfS.X ||| BpfClass.ALU, ⟨"SUB_X", some 1⟩),
  (BpfCode.ALU.MUL ||| BpfS.K ||| BpfClass.ALU, ⟨"MUL_K", some 14⟩),
  (BpfCode.ALU.MUL ||| BpfS.X ||| BpfClass.ALU, ⟨"MUL_X", some 10⟩),
  (BpfCode.ALU.DIV ||| BpfS.K ||| BpfClass.ALU, ⟨"DIV_K", some 38⟩),
  (BpfCode.ALU.DIV ||| BpfS.X ||| BpfClass.ALU, ⟨"DIV_X", some 34⟩),
  (BpfCode.ALU.MOD ||| BpfS.K ||| BpfClass.ALU, ⟨"MOD_K", some 38⟩),
  (BpfCode.ALU.MOD ||| BpfS.X ||| BpfClass.ALU, ⟨"MOD_X", some 34⟩),
  (BpfCode.ALU.OR ||| BpfS.K ||| BpfClass.ALU, ⟨"OR_K", some 5⟩),
  (BpfCode.ALU.OR ||| BpfS.X ||| BpfClass.ALU, ⟨"OR_X", some 1⟩),
  (BpfCode.ALU.AND ||| BpfS.K ||| BpfClass.ALU, ⟨"AND_K", some 5⟩),
  (BpfCode.ALU.AND ||| BpfS.X ||| BpfClass.ALU, ⟨"AND_X", some 1⟩),
  (BpfCode.ALU.LSH ||| BpfS.K ||| BpfClass.ALU, ⟨"LSH_K", some 1⟩),
  (BpfCode.ALU.LSH ||| BpfS.X ||| BpfClass.ALU, ⟨"LSH_X", some 1⟩),
  (BpfCode.ALU.RSH ||| BpfS.K ||| BpfClass.ALU, ⟨"RSH_K", some 1⟩),
  (BpfCode.ALU.RSH ||| BpfS.X ||| BpfClass.ALU, ⟨"RSH_X", some 1⟩),
  (BpfCode.ALU.NEG ||| BpfS.K ||| BpfClass.ALU, ⟨"NEG", some 0⟩),
  (BpfCode.ALU.XOR ||| BpfS.K ||| BpfClass.ALU, ⟨"XOR_K", some 5⟩),
  (BpfCode.ALU.XOR ||| BpfS.X ||| BpfClass.ALU, ⟨"XOR_X", some 1⟩),
  (BpfCode.ALU.MOV ||| BpfS.K ||| BpfClass.ALU, ⟨"MOV_K", some 4⟩),
  (BpfCode.ALU.MOV ||| BpfS.X ||| BpfClass.ALU, ⟨"MOV_X", some 4⟩),
  (BpfCode.ALU.ARSH ||| BpfS.K ||| BpfClass.ALU, ⟨"ARSH_K", some 1⟩),
  (BpfCode.ALU.ARSH ||| BpfS.X ||| BpfClass.ALU, ⟨"ARSH_X", some 1⟩),
  (BpfCode.ALU.END ||| BpfS.K ||| BpfClass.ALU, ⟨"END", none⟩),
  (BpfCode.ALU.ADD ||| BpfS.K ||| BpfClass.ALU64, ⟨"ADD64_K", some 5⟩),
  (BpfCode.ALU.ADD ||| BpfS.X ||| BpfClass.ALU64, ⟨"ADD64_X", some 1⟩),
  (BpfCode.ALU.SUB ||| BpfS.K ||| BpfClass.ALU64, ⟨"SUB64_K", some 5⟩),
  (BpfCode.ALU.SUB ||| BpfS.X ||| BpfClass.ALU64, ⟨"SUB64_X", some 1⟩),
  (BpfCode.ALU.MUL ||| BpfS.K ||| BpfClass.ALU64, ⟨"MUL64_K", some 14⟩),
  (BpfCode.ALU.MUL ||| BpfS.X ||| BpfClass.ALU64, ⟨"MUL64_X", some 10⟩),
  (BpfCode.ALU.DIV ||| BpfS.K ||| BpfClass.ALU64, ⟨"DIV64_K", some 38⟩),
  (BpfCode.ALU.DIV ||| BpfS.X ||| BpfClass.ALU64, ⟨"DIV64_X", some 34⟩),
  (BpfCode.ALU.MOD ||| BpfS.K ||| BpfClass.ALU64, ⟨"MOD64_K", some 38⟩),
  (BpfCode.ALU.MOD ||| BpfS.X ||| BpfClass.ALU64, ⟨"MOD64_X", some 34⟩),
  (BpfCode.ALU.OR ||| BpfS.K ||| BpfClass.ALU64, ⟨"OR64_K", some 5⟩),
  (BpfCode.ALU.OR ||| BpfS.X ||| BpfClass.ALU64, ⟨"OR64_X", some 1⟩),
  (BpfCode.ALU.AND ||| BpfS.K ||| BpfClass.ALU64, ⟨"AND64_K", some 5⟩),
  (BpfCode.ALU.AND ||| BpfS.X ||| BpfClass.ALU64, ⟨"AND64_X", some 1⟩),
  (BpfCode.ALU.LSH ||| BpfS.K ||| BpfClass.ALU64, ⟨"LSH64_K", some 1⟩),
  (BpfCode.ALU.LSH ||| BpfS.X ||| BpfClass.ALU64, ⟨"LSH64_X", some 1⟩),
  (BpfCode.ALU.RSH ||| BpfS.K ||| BpfClass.ALU64, ⟨"RSH64_K", some 1⟩),
  (BpfCode.ALU.RSH ||| BpfS.X ||| BpfClass.ALU64, ⟨"RSH64_X", some 1⟩),
  (BpfCode.ALU.NEG ||| BpfS.K ||| BpfClass.ALU64, ⟨"NEG64", some 0⟩),
  (BpfCode.ALU.XOR ||| BpfS.K ||| BpfClass.ALU64, ⟨"XOR64_K", some 5⟩),
  (BpfCode.ALU.XOR ||| BpfS.X ||| BpfClass.ALU64, ⟨"XOR64_X", some 1⟩),
  (BpfCode.ALU.MOV ||| BpfS.K ||| BpfClass.ALU64, ⟨"MOV64_K", some 4⟩),
  (BpfCode.ALU.MOV ||| BpfS.X ||| BpfClass.ALU64, ⟨"MOV64_X", some 4⟩),
  (BpfCode.ALU.ARSH ||| BpfS.K ||| BpfClass.ALU64, ⟨"ARSH64_K", some 1⟩)]

def BPF_INFO_2 : List (Nat × OpInfo) := [
  (BpfCode.ALU.ARSH ||| BpfS.X ||| BpfClass.ALU64, ⟨"ARSH64_X", some 1⟩),
  (BpfCode.ALU.END ||| BpfS.K ||| BpfClass.ALU64, ⟨"END64", none⟩),
  (BpfCode.JMP.JA ||| BpfS.K ||| BpfClass.JMP, ⟨"JA", some 2⟩),
  (BpfCode.JMP.JEQ ||| BpfS.K ||| BpfClass.JMP, ⟨"JEQ_K", some 7⟩),
  (BpfCode.JMP.JEQ ||| BpfS.X ||| BpfClass.JMP, ⟨"JEQ_X", some 3⟩),
  (BpfCode.JMP.JGT ||| BpfS.K ||| BpfClass.JMP, ⟨"JGT_K", some 7⟩),
  (BpfCode.JMP.JGT ||| BpfS.X ||| BpfClass.JMP, ⟨"JGT_X", some 3⟩),
  (BpfCode.JMP.JGE ||| BpfS.K ||| BpfClass.JMP, ⟨"JGE_K", some 7⟩),
  (BpfCode.JMP.JGE ||| BpfS.X ||| BpfClass.JMP, ⟨"JGE_X", some 3⟩),
  (BpfCode.JMP.JNE ||| BpfS.K ||| BpfClass.JMP, ⟨"JNE_K", some 7⟩),
  (BpfCode.JMP.JNE ||| BpfS.X ||| BpfClass.JMP, ⟨"JNE_X", some 3⟩),
  (BpfCode.JMP.JSET ||| BpfS.K ||| BpfClass.JMP, ⟨"JSET_K", some 8⟩),
  (BpfCode.JMP.JSET ||| BpfS.X ||| BpfClass.JMP, ⟨"JSET_X", some 4⟩),
  (BpfCode.JMP.JSGT ||| BpfS.K ||| BpfClass.JMP, ⟨"JSGT_K", some 7⟩),
  (BpfCode.JMP.JSGT ||| BpfS.X ||| BpfClass.JMP, ⟨"JSGT_X", some 3⟩),
  (BpfCode.JMP.JSGE ||| BpfS.K ||| BpfClass.JMP, ⟨"JSGE_K", some 7⟩),
  (BpfCode.JMP.JSGE ||| BpfS.X ||| BpfClass.JMP, ⟨"JSGE_X", some 3⟩),
  (BpfCode.JMP.JLT ||| BpfS.K ||| BpfClass.JMP, ⟨"JLT_K", some 7⟩),
  (BpfCode.JMP.JLT ||| BpfS.X ||| BpfClass.JMP, ⟨"JLT_X", some 3⟩),
  (BpfCode.JMP.JLE ||| BpfS.K ||| BpfClass.JMP, ⟨"JLE_K", some 7⟩),
  (BpfCode.JMP.JLE ||| BpfS.X ||| BpfClass.JMP, ⟨"JLE_X", some 3⟩),
  (BpfCode.JMP.JSLT ||| BpfS.K ||| BpfClass.JMP, ⟨"JSLT_K", some 7⟩),
  (BpfCode.JMP.JSLT ||| BpfS.X ||| BpfClass.JMP, ⟨"JSLT_X", some 3⟩),
  (BpfCode.JMP.JSLE ||| BpfS.K ||| BpfClass.JMP, ⟨"JSLE_K", some 7⟩),
  (BpfCode.JMP.JSLE ||| BpfS.X ||| BpfClass.JMP, ⟨"JSLE_X", some 3⟩),
  (BpfCode.JMP.CALL ||| BpfS.K ||| BpfClass.JMP, ⟨"CALL", none⟩),
  (BpfCode.JMP.EXIT ||| BpfS.K ||| BpfClass.JMP, ⟨"EXIT", some 2⟩),
  (BpfCode.JMP.JA ||| BpfS.K ||| BpfClass.JMP32, ⟨"JA", some 2⟩),
  (BpfCode.JMP.JEQ ||| BpfS.K ||| BpfClass.JMP32, ⟨"JEQ32_K", some 7⟩),
  (BpfCode.JMP.JEQ ||| BpfS.X ||| BpfClass.JMP32, ⟨"JEQ32_X", some 3⟩),
  (BpfCode.JMP.JNE ||| BpfS.K ||| BpfClass.JMP32, ⟨"JNE32_K", some 7⟩),
  (BpfCode.JMP.JNE ||| BpfS.X ||| BpfClass.JMP32, ⟨"JNE32_X", some 3⟩),
  (BpfCode.JMP.JGT ||| BpfS.K ||| BpfClass.JMP32, ⟨"JGT32_K", some 7⟩),
  (BpfCode.JMP.JGT ||| BpfS.X ||| BpfClass.JMP32, ⟨"JGT32_X", some 3⟩),
  (BpfCode.JMP.JGE ||| BpfS.K ||| BpfClass.JMP32, ⟨"JGE32_K", some 7⟩),
  (BpfCode.JMP.JGE ||| BpfS.X ||| BpfClass.JMP32, ⟨"JGE32_X", some 3⟩),
  (BpfCode.JMP.JSET ||| BpfS.K ||| BpfClass.JMP32, ⟨"JSET32_K", some 8⟩),
  (BpfCode.JMP.JSET ||| BpfS.X ||| BpfClass.JMP32, ⟨"JSET32_X", some 4⟩),
  (BpfCode.JMP.JLT ||| BpfS.K ||| BpfClass.JMP32, ⟨"JLT32_K", some 7⟩),
  (BpfCode.JMP.JLT ||| BpfS.X ||| BpfClass.JMP32, ⟨"JLT32_X", some 3⟩),
  (BpfCode.JMP.JLE ||| BpfS.K ||| BpfClass.JMP32, ⟨"JLE32_K", some 7⟩),
  (BpfCode.JMP.JLE ||| BpfS.X ||| BpfClass.JMP32, ⟨"JLE32_X", some 3⟩),
  (BpfCode.JMP.JSGT ||| BpfS.K ||| BpfClass.JMP32, ⟨"JSGT32_K", some 7⟩),
  (BpfCode.JMP.JSGT ||| BpfS.X ||| BpfClass.JMP32, ⟨"JSGT32_X", some 3⟩),
  (BpfCode.JMP.JSGE ||| BpfS.K ||| BpfClass.JMP32, ⟨"JSGE32_K", some 7⟩),
  (BpfCode.JMP.JSGE ||| BpfS.X ||| BpfClass.JMP32, ⟨"JSGE32_X", some 3⟩),
  (BpfCode.JMP.JSLT ||| BpfS.K ||| BpfClass.JMP32, ⟨"JSLT32_K", some 7⟩),
  (BpfCode.JMP.JSLT ||| BpfS.X ||| BpfClass.JMP32, ⟨"JSLT32_X", some 3⟩),
  (BpfCode.JMP.JSLE ||| BpfS.K ||| BpfClass.JMP32, ⟨"JSLE32_K", some 7⟩),
  (BpfCode.JMP.JSLE ||| BpfS.X ||| BpfClass.JMP32, ⟨"JSLE32_X", some 3⟩)]

def BPF_INFO_3 : List (Nat × OpInfo) := [
  (BpfMode.IMM ||| BpfSize.W ||| BpfClass.LD, ⟨"LD_IMM_W", some 4⟩),
  (BpfMode.IMM ||| BpfSize.H ||| BpfClass.LD, ⟨"LD_IMM_H", some 4⟩),
  (BpfMode.IMM ||| BpfSize.B ||| BpfClass.LD, ⟨"LD_IMM_B", some 4⟩),
  (BpfMode.IMM ||| BpfSize.DW ||| BpfClass.LD, ⟨"LDDW", some 4⟩),
  (BpfMode.ABS ||| BpfSize.W ||| BpfClass.LD, ⟨"LD_ABS_W", none⟩),
  (BpfMode.ABS ||| BpfSize.H ||| BpfClass.LD, ⟨"LD_ABS_H", none⟩),
  (BpfMode.ABS ||| BpfSize.B ||| BpfClass.LD, ⟨"LD_ABS_B", none⟩),
  (BpfMode.ABS ||| BpfSize.DW ||| BpfClass.LD, ⟨"LD_ABS_DW", none⟩),
  (BpfMode.IND ||| BpfSize.W ||| BpfClass.LD, ⟨"LD_IND_W", none⟩),
  (BpfMode.IND ||| BpfSize.H ||| BpfClass.LD, ⟨"LD_IND_H", none⟩),
  (BpfMode.IND ||| BpfSize.B ||| BpfClass.LD, ⟨"LD_IND_B", none⟩),
  (BpfMode.IND ||| BpfSize.DW ||| BpfClass.LD, ⟨"LD_IND_DW", none⟩),
  (BpfMode.MEM ||| BpfSize.W ||| BpfClass.LD, ⟨"LD_MEM_W", none⟩),
  (BpfMode.MEM ||| BpfSize.H ||| BpfClass.LD, ⟨"LD_MEM_H", none⟩),
  (BpfMode.MEM ||| BpfSize.B ||| BpfClass.LD, ⟨"LD_MEM_B", none⟩),
  (BpfMode.MEM ||| BpfSize.DW ||| BpfClass.LD, ⟨"LD_MEM_DW", none⟩),
  (BpfMode.MEMSX ||| BpfSize.W ||| BpfClass.LD, ⟨"LD_MEMSX_W", none⟩),
  (BpfMode.MEMSX ||| BpfSize.H ||| BpfClass.LD, ⟨"LD_MEMSX_H", none⟩),
  (BpfMode.MEMSX ||| BpfSize.B ||| BpfClass.LD, ⟨"LD_MEMSX_B", none⟩),
  (BpfMode.MEMSX ||| BpfSize.DW ||| BpfClass.LD, ⟨"LD_MEMSX_DW", none⟩),
  (BpfMode.IMM ||| BpfSize.W ||| BpfClass.LDX, ⟨"LDX_IMM_W", none⟩),
  (BpfMode.IMM ||| BpfSize.H ||| BpfClass.LDX, ⟨"LDX_IMM_H", none⟩),
  (BpfMode.IMM ||| BpfSize.B ||| BpfClass.LDX, ⟨"LDX_IMM_B", none⟩),
  (BpfMode.IMM ||| BpfSize.DW ||| BpfClass.LDX, ⟨"LDX_IMM_DW", none⟩),
  (BpfMode.ABS ||| BpfSize.W ||| BpfClass.LDX, ⟨"LDX_ABS_W", none⟩),
  (BpfMode.ABS ||| BpfSize.H ||| BpfClass.LDX, ⟨"LDX_ABS_H", none⟩),
  (BpfMode.ABS ||| BpfSize.B ||| BpfClass.LDX, ⟨"LDX_ABS_B", none⟩),
  (BpfMode.ABS ||| BpfSize.DW ||| BpfClass.LDX, ⟨"LDX_ABS_DW", none⟩),
  (BpfMode.IND ||| BpfSize.W ||| BpfClass.LDX, ⟨"LDX_IND_W", none⟩),
  (BpfMode.IND ||| BpfSize.H ||| BpfClass.LDX, ⟨"LDX_IND_H", none⟩),
  (BpfMode.IND ||| BpfSize.B ||| BpfClass.LDX, ⟨"LDX_IND_B", none⟩),
  (BpfMode.IND ||| BpfSize.DW ||| BpfClass.LDX, ⟨"LDX_IND_DW", none⟩),
  (BpfMode.MEM ||| BpfSize.W ||| BpfClass.LDX, ⟨"LDX_W", some 11⟩),
  (BpfMode.MEM ||| BpfSize.H ||| BpfClass.LDX, ⟨"LDX_H", some 11⟩),
  (BpfMode.MEM ||| BpfSize.B ||| BpfClass.LDX, ⟨"LDX_B", some 11⟩),
  (BpfMode.MEM ||| BpfSize.DW ||| BpfClass.LDX, ⟨"LDX_DW", some 11⟩),
  (BpfMode.MEMSX ||| BpfSize.W ||| BpfClass.LDX, ⟨"LDX_MEMSX_W", some 11⟩),
  (BpfMode.MEMSX ||| BpfSize.H ||| BpfClass.LDX, ⟨"LDX_MEMSX_H", some 11⟩),
  (BpfMode.MEMSX ||| BpfSize.B ||| BpfClass.LDX, ⟨"LDX_MEMSX_B", some 11⟩),
  (BpfMode.MEMSX ||| BpfSize.DW ||| BpfClass.LDX, ⟨"LDX_MEMSX_DW", some 11⟩),
  (BpfMode.IMM ||| BpfSize.W ||| BpfClass.ST, ⟨"ST_IMM_W", none⟩),
  (BpfMode.IMM ||| BpfSize.H ||| BpfClass.ST, ⟨"ST_IMM_H", none⟩),
  (BpfMode.IMM ||| BpfSize.B ||| BpfClass.ST, ⟨"ST_IMM_B", none⟩),
  (BpfMode.IMM ||| BpfSize.DW ||| BpfClass.ST, ⟨"ST_IMM_DW", none⟩),
  (BpfMode.ABS ||| BpfSize.W ||| BpfClass.ST, ⟨"ST_ABS_W", some 0⟩),
  (BpfMode.ABS ||| BpfSize.H ||| BpfClass.ST, ⟨"ST_ABS_H", some 0⟩),
  (BpfMode.ABS ||| BpfSize.B ||| BpfClass.ST, ⟨"ST_ABS_B", some 0⟩),
  (BpfMode.ABS ||| BpfSize.DW ||| BpfClass.ST, ⟨"ST_ABS_DW", some 0⟩),
  (BpfMode.IND ||| BpfSize.W ||| BpfClass.ST, ⟨"ST_IND_W", some 0⟩),
  (BpfMode.IND ||| BpfSize.H ||| BpfClass.ST, ⟨"ST_IND_H", some 0⟩)]

def BPF_INFO_4 : List (Nat × OpInfo) := [
  (BpfMode.IND ||| BpfSize.B ||| BpfClass.ST, ⟨"ST_IND_B", some 0⟩),
  (BpfMode.IND ||| BpfSize.DW ||| BpfClass.ST, ⟨"ST_IND_DW", some 0⟩),
  (BpfMode.MEM ||| BpfSize.W ||| BpfClass.ST, ⟨"ST_W", some 11⟩),
  (BpfMode.MEM ||| BpfSize.H ||| BpfClass.ST, ⟨"ST_H", some 11⟩),
  (BpfMode.MEM ||| BpfSize.B ||| BpfClass.ST, ⟨"ST_B", some 11⟩),
  (BpfMode.MEM ||| BpfSize.DW ||| BpfClass.ST, ⟨"ST_DW", some 11⟩),
  (BpfMode.MEMSX ||| BpfSize.W ||| BpfClass.ST, ⟨"ST_MEMSX_W", some 11⟩),
  (BpfMode.MEMSX ||| BpfSize.H ||| BpfClass.ST, ⟨"ST_MEMSX_H", some 11⟩),
  (BpfMode.MEMSX ||| BpfSize.B ||| BpfClass.ST, ⟨"ST_MEMSX_B", some 11⟩),
  (BpfMode.MEMSX ||| BpfSize.DW ||| BpfClass.ST, ⟨"ST_MEMSX_DW", some 11⟩),
  (BpfMode.IMM ||| BpfSize.W ||| BpfClass.STX, ⟨"STX_IMM_W", none⟩),
  (BpfMode.IMM ||| BpfSize.H ||| BpfClass.STX, ⟨"STX_IMM_H", none⟩),
  (BpfMode.IMM ||| BpfSize.B ||| BpfClass.STX, ⟨"STX_IMM_B", none⟩),
  (BpfMode.IMM ||| BpfSize.DW ||| BpfClass.STX, ⟨"STX_IMM_DW", none⟩),
  (BpfMode.ABS ||| BpfSize.W ||| BpfClass.STX, ⟨"STX_ABS_W", none⟩),
  (BpfMode.ABS ||| BpfSize.H ||| BpfClass.STX, ⟨"STX_ABS_H", none⟩),
  (BpfMode.ABS ||| BpfSize.B ||| BpfClass.STX, ⟨"STX_ABS_B", none⟩),
  (BpfMode.ABS ||| BpfSize.DW ||| BpfClass.STX, ⟨"STX_ABS_DW", none⟩),
  (BpfMode.IND ||| BpfSize.W ||| BpfClass.STX, ⟨"STX_IND_W", none⟩),
  (BpfMode.IND ||| BpfSize.H ||| BpfClass.STX, ⟨"STX_IND_H", none⟩),
  (BpfMode.IND ||| BpfSize.B ||| BpfClass.STX, ⟨"STX_IND_B", none⟩),
  (BpfMode.IND ||| BpfSize.DW ||| BpfClass.STX, ⟨"STX_IND_DW", none⟩),
  (BpfMode.MEM ||| BpfSize.W ||| BpfClass.STX, ⟨"STX_W", some 7⟩),
  (BpfMode.MEM ||| BpfSize.H ||| BpfClass.STX, ⟨"STX_H", some 7⟩),
  (BpfMode.MEM ||| BpfSize.B ||| BpfClass.STX, ⟨"STX_B", some 7⟩),
  (BpfMode.MEM ||| BpfSize.DW ||| BpfClass.STX, ⟨"STX_DW", some 7⟩),
  (BpfMode.MEMSX ||| BpfSize.W ||| BpfClass.STX, ⟨"STX_MEMSX_W", some 7⟩),
  (BpfMode.MEMSX ||| BpfSize.H ||| BpfClass.STX, ⟨"STX_MEMSX_H", some 7⟩),
  (BpfMode.MEMSX ||| BpfSize.B ||| BpfClass.STX, ⟨"STX_MEMSX_B", some 7⟩),
  (BpfMode.MEMSX ||| BpfSize.DW ||| BpfClass.STX, ⟨"STX_MEMSX_DW", some 7⟩),
  ((BpfMode.ATOMIC ||| BpfSize.W ||| BpfClass.STX) ||| (ATOMIC_ADD <<< 8), ⟨"ATOMIC_ADD_W", some 8⟩),
  ((BpfMode.ATOMIC ||| BpfSize.W ||| BpfClass.STX) ||| ((ATOMIC_ADD ||| BPF_FETCH) <<< 8), ⟨"ATOMIC_ADD_FETCH_W", some 8⟩),
  ((BpfMode.ATOMIC ||| BpfSize.W ||| BpfClass.STX) ||| (ATOMIC_AND <<< 8), ⟨"ATOMIC_AND_W", some 8⟩),
  ((BpfMode.ATOMIC ||| BpfSize.W ||| BpfClass.STX) ||| ((ATOMIC_AND ||| BPF_FETCH) <<< 8), ⟨"ATOMIC_AND_FETCH_W", some 8⟩),
  ((BpfMode.ATOMIC ||| BpfSize.W ||| BpfClass.STX) ||| (ATOMIC_OR <<< 8), ⟨"ATOMIC_OR_W", some 8⟩),
  ((BpfMode.ATOMIC ||| BpfSize.W ||| BpfClass.STX) ||| ((ATOMIC_OR ||| BPF_FETCH) <<< 8), ⟨"ATOMIC_OR_FETCH_W", some 8⟩),
  ((BpfMode.ATOMIC ||| BpfSize.W ||| BpfClass.STX) ||| (ATOMIC_XOR <<< 8), ⟨"ATOMIC_XOR_W", some 8⟩),
  ((BpfMode.ATOMIC ||| BpfSize.W ||| BpfClass.STX) ||| ((ATOMIC_XOR ||| BPF_FETCH) <<< 8), ⟨"ATOMIC_XOR_FETCH_W", some 8⟩),
  ((BpfMode.ATOMIC ||| BpfSize.W ||| BpfClass.STX) ||| (ATOMIC_XCHG <<< 8), ⟨"ATOMIC_XCHG_W", some 8⟩),
  ((BpfMode.ATOMIC ||| BpfSize.W ||| BpfClass.STX) ||| (ATOMIC_CMPXCHG <<< 8), ⟨"ATOMIC_CMPXCHG_W", some 8⟩),
  ((BpfMode.ATOMIC ||| BpfSize.DW ||| BpfClass.STX) ||| (ATOMIC_ADD <<< 8), ⟨"ATOMIC_ADD_DW", some 8⟩),
  ((BpfMode.ATOMIC ||| BpfSize.DW ||| BpfClass.STX) ||| ((ATOMIC_ADD ||| BPF_FETCH) <<< 8), ⟨"ATOMIC_ADD_FETCH_DW", some 8⟩),
  ((BpfMode.ATOMIC ||| BpfSize.DW ||| BpfClass.STX) ||| (ATOMIC_AND <<< 8), ⟨"ATOMIC_AND_DW", some 8⟩),
  ((BpfMode.ATOMIC ||| BpfSize.DW ||| BpfClass.STX) ||| ((ATOMIC_AND ||| BPF_FETCH) <<< 8), ⟨"ATOMIC_AND_FETCH_DW", some 8⟩),
  ((BpfMode.ATOMIC ||| BpfSize.DW ||| BpfClass.STX) ||| (ATOMIC_OR <<< 8), ⟨"ATOMIC_OR_DW", some 8⟩),
  ((BpfMode.ATOMIC ||| BpfSize.DW ||| BpfClass.STX) ||| ((ATOMIC_OR ||| BPF_FETCH) <<< 8), ⟨"ATOMIC_OR_FETCH_DW", some 8⟩),
  ((BpfMode.ATOMIC ||| BpfSize.DW ||| BpfClass.STX) ||| (ATOMIC_XOR <<< 8), ⟨"ATOMIC_XOR_DW", some 8⟩),
  ((BpfMode.ATOMIC ||| BpfSize.DW ||| BpfClass.STX) ||| ((ATOMIC_XOR ||| BPF_FETCH) <<< 8), ⟨"ATOMIC_XOR_FETCH_DW", some 8⟩),
  ((BpfMode.ATOMIC ||| BpfSize.DW ||| BpfClass.STX) ||| (ATOMIC_XCHG <<< 8), ⟨"ATOMIC_XCHG_DW", some 8⟩),
  ((BpfMode.ATOMIC ||| BpfSize.DW ||| BpfClass.STX) ||| (ATOMIC_CMPXCHG <<< 8), ⟨"ATOMIC_CMPXCHG_DW", some 8⟩)]

/-- The full `dfs.py` dictionary (split into chunks above purely to keep
elaboration cheap; concatenation preserves entry order). -/
def BPF_INFO : List (Nat × OpInfo) := BPF_INFO_1 ++ BPF_INFO_2 ++ BPF_INFO_3 ++ BPF_INFO_4

/-! ## FPU latency catalog

`mem_access.py` imports `BPF_INFO_FPU` (and `is_fpu_instr`) from the `dfs`
module, whose copy is not in the source snapshot; `bpf.py` defines the
same-named table, transcribed here (split in two for elaboration cost;
note the source's literal typo `"JFULE_32X"` in the last entry). -/

def BPF_INFO_FPU_1 : List (Nat × OpInfo) := [
  (BpfCode.ALU.ADD ||| BpfS.K ||| BpfClass.ALU, ⟨"FADD_K", some 12⟩),
  (BpfCode.ALU.ADD ||| BpfS.X ||| BpfClass.ALU, ⟨"FADD_X", some 5⟩),
  (BpfCode.ALU.SUB ||| BpfS.K ||| BpfClass.ALU, ⟨"FSUB_K", some 12⟩),
  (BpfCode.ALU.SUB ||| BpfS.X ||| BpfClass.ALU, ⟨"FSUB_X", some 5⟩),
  (BpfCode.ALU.MUL ||| BpfS.K ||| BpfClass.ALU, ⟨"FMUL_K", some 12⟩),
  (BpfCode.ALU.MUL ||| BpfS.X ||| BpfClass.ALU, ⟨"FMUL_X", some 5⟩),
  (BpfCode.ALU.DIV ||| BpfS.K ||| BpfClass.ALU, ⟨"FDIV_K", some 27⟩),
  (BpfCode.ALU.DIV ||| BpfS.X ||| BpfClass.ALU, ⟨"FDIV_X", some 20⟩),
  (BpfCode.ALU.NEG ||| BpfS.K ||| BpfClass.ALU, ⟨"FNEG_K", some 3⟩),
  (BpfCode.ALU.NEG ||| BpfS.X ||| BpfClass.ALU, ⟨"FNEG_X", some 3⟩),
  (BpfCode.ALU.MOV ||| BpfS.K ||| BpfClass.ALU, ⟨"FMOV_K", some 7⟩),
  (BpfCode.ALU.MOV ||| BpfS.X ||| BpfClass.ALU, ⟨"FMOV_X", some 7⟩),
  (BpfCode.ALU.ADD ||| BpfS.K ||| BpfClass.ALU64, ⟨"FADD64_K", some 14⟩),
  (BpfCode.ALU.ADD ||| BpfS.X ||| BpfClass.ALU64, ⟨"FADD64_X", some 7⟩),
  (BpfCode.ALU.SUB ||| BpfS.K ||| BpfClass.ALU64, ⟨"FSUB64_K", some 14⟩),
  (BpfCode.ALU.SUB ||| BpfS.X ||| BpfClass.ALU64, ⟨"FSUB64_X", some 7⟩),
  (BpfCode.ALU.MUL ||| BpfS.K ||| BpfClass.ALU64, ⟨"FMUL64_K", some 14⟩),
  (BpfCode.ALU.MUL ||| BpfS.X ||| BpfClass.ALU64, ⟨"FMUL64_X", some 7⟩),
  (BpfCode.ALU.DIV ||| BpfS.K ||| BpfClass.ALU64, ⟨"FDIV64_K", some 27⟩),
  (BpfCode.ALU.DIV ||| BpfS.X ||| BpfClass.ALU64, ⟨"FDIV64_X", some 20⟩),
  (BpfCode.ALU.NEG ||| BpfS.K ||| BpfClass.ALU64, ⟨"FNEG64_K", some 3⟩),
  (BpfCode.ALU.NEG ||| BpfS.X ||| BpfClass.ALU64, ⟨"FNEG64_X", some 3⟩),
  (BpfCode.ALU.MOV ||| BpfS.K ||| BpfClass.ALU64, ⟨"FMOV64_K", some 7⟩),
  (BpfCode.ALU.MOV ||| BpfS.X ||| BpfClass.ALU64, ⟨"FMOV64_X", some 7⟩),
  (BpfCode.JMP.JEQ ||| BpfS.K ||| BpfClass.JMP, ⟨"JFEQ_K", some 10⟩),
  (BpfCode.JMP.JEQ ||| BpfS.X ||| BpfClass.JMP, ⟨"JFEQ_X", some 3⟩),
  (BpfCode.JMP.JGT ||| BpfS.K ||| BpfClass.JMP, ⟨"JFOGT_K", some 10⟩),
  (BpfCode.JMP.JGT ||| BpfS.X ||| BpfClass.JMP, ⟨"JFOGT_X", some 3⟩),
  (BpfCode.JMP.JGE ||| BpfS.K ||| BpfClass.JMP, ⟨"JFOGE_K", some 10⟩),
  (BpfCode.JMP.JGE ||| BpfS.X ||| BpfClass.JMP, ⟨"JFOGE_X", some 3⟩),
  (BpfCode.JMP.JNE ||| BpfS.K ||| BpfClass.JMP, ⟨"JFNE_K", some 10⟩),
  (BpfCode.JMP.JNE ||| BpfS.X ||| BpfClass.JMP, ⟨"JFNE_X", some 3⟩)]

def BPF_INFO_FPU_2 : List (Nat × OpInfo) := [
  (BpfCode.JMP.JSGT ||| BpfS.K ||| BpfClass.JMP, ⟨"JFUGT_K", some 15⟩),
  (BpfCode.JMP.JSGT ||| BpfS.X ||| BpfClass.JMP, ⟨"JFUGT_X", some 8⟩),
  (BpfCode.JMP.JSGE ||| BpfS.K ||| BpfClass.JMP, ⟨"JFUGE_K", some 15⟩),
  (BpfCode.JMP.JSGE ||| BpfS.X ||| BpfClass.JMP, ⟨"JFUGE_X", some 8⟩),
  (BpfCode.JMP.JLT ||| BpfS.K ||| BpfClass.JMP, ⟨"JFOLT_K", some 10⟩),
  (BpfCode.JMP.JLT ||| BpfS.X ||| BpfClass.JMP, ⟨"JFOLT_X", some 3⟩),
  (BpfCode.JMP.JLE ||| BpfS.K ||| BpfClass.JMP, ⟨"JFOLE_K", some 10⟩),
  (BpfCode.JMP.JLE ||| BpfS.X ||| BpfClass.JMP, ⟨"JFOLE_X", some 3⟩),
  (BpfCode.JMP.JSLT ||| BpfS.K ||| BpfClass.JMP, ⟨"JFULT_K", some 15⟩),
  (BpfCode.JMP.JSLT ||| BpfS.X ||| BpfClass.JMP, ⟨"JFULT_X", some 8⟩),
  (BpfCode.JMP.JSLE ||| BpfS.K ||| BpfClass.JMP, ⟨"JFULE_K", some 15⟩),
  (BpfCode.JMP.JSLE ||| BpfS.X ||| BpfClass.JMP, ⟨"JFULE_X", some 8⟩),
  (BpfCode.JMP.JEQ ||| BpfS.K ||| BpfClass.JMP32, ⟨"JFEQ32_K", some 10⟩),
  (BpfCode.JMP.JEQ ||| BpfS.X ||| BpfClass.JMP32, ⟨"JFEQ32_X", some 3⟩),
  (BpfCode.JMP.JGT ||| BpfS.K ||| BpfClass.JMP32, ⟨"JFOGT32_K", some 10⟩),
  (BpfCode.JMP.JGT ||| BpfS.X ||| BpfClass.JMP32, ⟨"JFOGT32_X", some 3⟩),
  (BpfCode.JMP.JGE ||| BpfS.K ||| BpfClass.JMP32, ⟨"JFOGE32_K", some 10⟩),
  (BpfCode.JMP.JGE ||| BpfS.X ||| BpfClass.JMP32, ⟨"JFOGE32_X", some 3⟩),
  (BpfCode.JMP.JNE ||| BpfS.K ||| BpfClass.JMP32, ⟨"JFNE32_K", some 10⟩),
  (BpfCode.JMP.JNE ||| BpfS.X ||| BpfClass.JMP32, ⟨"JFNE32_X", some 3⟩),
  (BpfCode.JMP.JSGT ||| BpfS.K ||| BpfClass.JMP32, ⟨"JFUGT32_K", some 15⟩),
  (BpfCode.JMP.JSGT ||| BpfS.X ||| BpfClass.JMP32, ⟨"JFUGT32_X", some 8⟩),
  (BpfCode.JMP.JSGE ||| BpfS.K ||| BpfClass.JMP32, ⟨"JFUGE32_K", some 15⟩),
  (BpfCode.JMP.JSGE ||| BpfS.X ||| BpfClass.JMP32, ⟨"JFUGE32_X", some 8⟩),
  (BpfCode.JMP.JLT ||| BpfS.K ||| BpfClass.JMP32, ⟨"JFOLT32_K", some 10⟩),
  (BpfCode.JMP.JLT ||| BpfS.X ||| BpfClass.JMP32, ⟨"JFOLT32_X", some 3⟩),
  (BpfCode.JMP.JLE ||| BpfS.K ||| BpfClass.JMP32, ⟨"JFOLE32_K", some 10⟩),
  (BpfCode.JMP.JLE ||| BpfS.X ||| BpfClass.JMP32, ⟨"JFOLE32_X", some 3⟩),
  (BpfCode.JMP.JSLT ||| BpfS.K ||| BpfClass.JMP32, ⟨"JFULT32_K", some 15⟩),
  (BpfCode.JMP.JSLT ||| BpfS.X ||| BpfClass.JMP32, ⟨"JFULT32_X", some 8⟩),
  (BpfCode.JMP.JSLE ||| BpfS.K ||| BpfClass.JMP32, ⟨"JFULE32_K", some 15⟩),
  (BpfCode.JMP.JSLE ||| BpfS.X ||| BpfClass.JMP32, ⟨"JFULE_32X", some 8⟩)]

def BPF_INFO_FPU : List (Nat × OpInfo) := BPF_INFO_FPU_1 ++ BPF_INFO_FPU_2

/-! ## FPU discriminator and catalog lookup -/

/-- Modelled from the spec: `is_fpu_instr` is imported by `mem_access.py`
from the `dfs` module but is absent from the source snapshot.  §4.2: for
classes ALU/ALU64 the instruction is FPU iff bit 1 of the 16-bit offset is 1;
for classes JMP/JMP32 (excluding CALL and EXIT) iff bit 1 of the immediate is
1; for the memory classes iff the mode is FMEM (= 0b101). -/
def is_fpu_instr (instr : Instruction) : Bool :=
  let cls := instr.opcode % 8
  if cls = BpfClass.ALU ∨ cls = BpfClass.ALU64 then
    (instr.off % 2 ^ 16).toNat / 2 % 2 = 1
  else if cls = BpfClass.JMP ∨ cls = BpfClass.JMP32 then
    let code := instr.opcode / 16 * 16
    if code = BpfCode.JMP.CALL ∨ code = BpfCode.JMP.EXIT then false
    else (instr.imm % 2 ^ 32).toNat / 2 % 2 = 1
  else
    instr.opcode / 32 * 32 = BpfMode.FMEM

/-- `_opinfo_for` (`mem_access.py`): choose the FPU or integer table.
(`dict.get` over distinct keys is `List.lookup`.) -/
def opinfo_for (instr : Instruction) : Option OpInfo :=
  if is_fpu_instr instr then BPF_INFO_FPU.lookup instr.opcode
  else BPF_INFO.lookup instr.opcode

/-! ## `instr_to_runtime` (`dfs.py` lines 273-300)

The loop `for idx in range(start, end+1)` sums `op_info.latency` when both
`op_info` and its latency are truthy; an absent `op_info` (unknown opcode)
and a `None` (or `0`) latency contribute nothing, which is the same sum as
adding `0`.  Indexing is total in the ranges the analyzer uses; out-of-range
indices take the default instruction. -/
def instr_to_runtime (instructions : List Instruction) (start e : Nat) : Nat :=
  ((List.range' start (e + 1 - start)).map (fun idx =>
    match BPF_INFO.lookup (instructions.getD idx default).opcode with
    | some op_info => op_info.latency.getD 0
    | none => 0)).sum

/-! ## Symbolic values and memory accesses (`mem_access.py`) -/

/-- `SymbolicAddr(base, offset)`. -/
structure SymbolicAddr where
  base : String
  offset : Int
deriving DecidableEq, Repr

/-- `SymbolicVal`: the three makers `make_unknown`, `make_const`, `make_ptr`. -/
inductive SymbolicVal
  | unknown
  | const : Int → SymbolicVal
  | ptr : SymbolicAddr → SymbolicVal
deriving DecidableEq, Repr

/-- `RegisterState`: a total map `reg → SymbolicVal`; `get` of a missing key
is `make_unknown()` in the source, so the function view is exact. -/
def RegisterState := Nat → SymbolicVal

/-- `RegisterState.set`. -/
def regSet (st : RegisterState) (r : Nat) (v : SymbolicVal) : RegisterState :=
  fun r' => if r' = r then v else st r'

/-- `_init_state()`: all registers unknown, `r10 = make_ptr("fp", 0)`. -/
def init_state : RegisterState :=
  fun r => if r = 10 then .ptr ⟨"fp", 0⟩ else .unknown

/-- Z3 integer-sorted expressions as used by `mem_access.py`:
`Int(name)` symbols (`regVar reg ver` stands for `Int(f"R{reg}_I{ver}")`),
integer literals, and the arithmetic the code builds. -/
inductive Z3Expr
  | intVal : Int → Z3Expr
  | sym : String → Z3Expr
  | regVar : Nat → Int → Z3Expr
  | add : Z3Expr → Z3Expr → Z3Expr
  | sub : Z3Expr → Z3Expr → Z3Expr
  | mul : Z3Expr → Z3Expr → Z3Expr
  | neg : Z3Expr → Z3Expr
  | abs : Z3Expr → Z3Expr
deriving DecidableEq, Repr

/-- Z3 boolean expressions the code builds. -/
inductive Z3Bool
  | eq : Z3Expr → Z3Expr → Z3Bool
  | ne : Z3Expr → Z3Expr → Z3Bool
  | gt : Z3Expr → Z3Expr → Z3Bool
  | ge : Z3Expr → Z3Expr → Z3Bool
  | lt : Z3Expr → Z3Expr → Z3Bool
  | le : Z3Expr → Z3Expr → Z3Bool
  | not : Z3Bool → Z3Bool
deriving DecidableEq, Repr

/-- `solver.check()` results. -/
inductive CheckRes
  | sat
  | unsat
  | unknown
deriving DecidableEq, Repr

/-- The external SMT backend, abstracted: a decision for any assertion
stack.  `push`/`add`/`pop` around a `check()` appear as a scoped extension of
the stack passed here. -/
def SolverFn := List Z3Bool → CheckRes

/-- `MemoryAccess` (one record per memory instruction on a path). -/
structure MemoryAccess where
  idx : Nat
  type : String
  addr : Option SymbolicAddr
  size : Nat
  base_latency : Nat
  dram_added : Nat
  z3_addr : Option Z3Expr
deriving DecidableEq, Repr

instance : Inhabited MemoryAccess := ⟨⟨0, "", none, 0, 0, 0, none⟩⟩

/-! ## Cache-model constants (`mem_access.py` lines 13-32) -/

def DRAM_EXTRA_CYCLES : Nat := 87

def PEEP_WINDOW : Nat := 5

def NEAR_DELTA : Int := 4

def MEMORY_TYPES : List String := ["ld", "st", "fldx", "fstx", "map"]

def LOCALITY_TYPES : List String := ["ld", "st", "fldx", "fstx"]

def BPF_FUNC_map_lookup_elem : Int := 1

def BPF_FUNC_map_update_elem : Int := 2

def BPF_FUNC_map_delete_elem : Int := 3

/-! ## Cache model `_est_cache_latency_z3` (`mem_access.py` lines 518-555) -/

/-- Initialization step: `m.dram_added = DRAM_EXTRA_CYCLES if m.type in
MEMORY_TYPES else 0`. -/
def estCacheInit (m : MemoryAccess) : MemoryAccess :=
  { m with dram_added := if MEMORY_TYPES.contains m.type then DRAM_EXTRA_CYCLES else 0 }

/-- The pushed assertion `Not(Abs(ai - aj) <= near)`. -/
def nearQuery (ai aj : Z3Expr) (near : Int) : Z3Bool :=
  .not (.le (.abs (.sub ai aj)) (.intVal near))

/-- The inner loop `for j in range(max(0, i - window), i)`: skip prior
accesses without an address or outside `LOCALITY_TYPES`; otherwise
push/add/check/pop and stop at the first `res != sat`.  (Reading `accs`
before the in-place update is equivalent: the scan only consults `z3_addr`
and `type`, which the update never changes.) -/
def nearPriorHit (check : SolverFn) (solver : List Z3Bool) (near : Int)
    (accs : List MemoryAccess) (window i : Nat) (ai : Z3Expr) : Bool :=
  ((List.range' (i - window) (i - (i - window))).find? (fun j =>
    let mj := accs.getD j default
    match mj.z3_addr with
    | none => false
    | some aj =>
      if LOCALITY_TYPES.contains mj.type then
        check (solver ++ [nearQuery ai aj near]) != CheckRes.sat
      else false)).isSome

/-- One iteration of the outer loop of `_est_cache_latency_z3` for access
`m` at position `i`: `continue` when there is no address or the category is
outside `LOCALITY_TYPES`; otherwise scan the window and zero the penalty on
the first hit. -/
def estCacheStep (check : SolverFn) (solver : List Z3Bool)
    (window : Nat) (near : Int) (inits : List MemoryAccess)
    (i : Nat) (m : MemoryAccess) : MemoryAccess :=
  match m.z3_addr with
  | none => m
  | some ai =>
    if LOCALITY_TYPES.contains m.type then
      if nearPriorHit check solver near inits window i ai then
        { m with dram_added := 0 }
      else m
    else m

/-- The per-access result of the scan loop of `_est_cache_latency_z3`. -/
def estCacheUpdated (check : SolverFn) (solver : List Z3Bool)
    (window : Nat) (near : Int) (ms : List MemoryAccess) : List MemoryAccess :=
  let inits := ms.map estCacheInit
  inits.mapIdx (estCacheStep check solver window near inits)

/-- `_est_cache_latency_z3`: returns the (in-place updated) access list
together with `sum(m.dram_added for m in path_mem_accesses)`. -/
def est_cache_latency_z3 (check : SolverFn) (solver : List Z3Bool)
    (window : Nat) (near : Int) (path_mem_accesses : List MemoryAccess) :
    List MemoryAccess × Nat :=
  let updated := estCacheUpdated check solver window near path_mem_accesses
  (updated, (updated.map (·.dram_added)).sum)

/-! ## Claims C2 and C10 about the cache model -/

theorem estCacheStep_cases (check : SolverFn) (solver : List Z3Bool)
    (window : Nat) (near : Int) (inits : List MemoryAccess) (i : Nat)
    (m : MemoryAccess) :
    estCacheStep check solver window near inits i m = m
    ∨ estCacheStep check solver window near inits i m = { m with dram_added := 0 } := by
  unfold estCacheStep
  cases m.z3_addr with
  | none => exact Or.inl rfl
  | some ai =>
    dsimp only
    split
    · split
      · exact Or.inr rfl
      · exact Or.inl rfl
    · exact Or.inl rfl

/-- **C10.** After the cache model runs, every record's `dram_added` is `0`
or `87` (`87` only for the categories in `MEMORY_TYPES`, i.e. load, store,
FP-load, FP-store, map), and the returned path penalty is the sum of
`dram_added` over the final list. -/
theorem c10_cache_dram_invariant (check : SolverFn) (solver : List Z3Bool)
    (window : Nat) (near : Int) (ms : List MemoryAccess) :
    (est_cache_latency_z3 check solver window near ms).2
        = (((est_cache_latency_z3 check solver window near ms).1).map
            (·.dram_added)).sum
    ∧ ∀ m ∈ (est_cache_latency_z3 check solver window near ms).1,
        (m.dram_added = 0 ∨ m.dram_added = DRAM_EXTRA_CYCLES)
        ∧ (m.dram_added = DRAM_EXTRA_CYCLES → m.type ∈ MEMORY_TYPES) := by
  refine ⟨rfl, ?_⟩
  intro m hm
  simp only [est_cache_latency_z3, estCacheUpdated, List.mapIdx_eq_enum_map] at hm
  obtain ⟨⟨i, m0⟩, hmem, hend⟩ := List.mem_map.mp hm
  obtain ⟨hi, hm0eq⟩ := List.mem_enum hmem
  rw [Function.uncurry_apply_pair] at hend
  have hm0mem : m0 ∈ ms.map estCacheInit := by rw [hm0eq]; exact List.getElem_mem hi
  obtain ⟨x, hx, hxeq⟩ := List.mem_map.mp hm0mem
  subst hxeq
  rcases estCacheStep_cases check solver window near (ms.map estCacheInit) i
      (estCacheInit x) with hc | hc <;> rw [hend] at hc <;> subst hc <;>
    by_cases hmemx : MEMORY_TYPES.contains x.type <;>
      simp [estCacheInit, hmemx, DRAM_EXTRA_CYCLES] <;>
        tauto

/-- Two path accesses of category `"ld"` whose symbolic addresses cannot be
decided by the backend: the failing input for C2. -/
def c2acc1 : MemoryAccess := ⟨0, "ld", some ⟨"fp", -8⟩, 4, 11, 0, some (Z3Expr.regVar 10 0)⟩

def c2acc2 : MemoryAccess := ⟨1, "ld", some ⟨"fp", -108⟩, 4, 11, 0, some (Z3Expr.regVar 10 1)⟩

/-- **C2.** The claim (and spec §5) says an `unknown` verdict keeps the DRAM
penalty and only `unsat` may clear it, but the guard in
`_est_cache_latency_z3` is `res != sat` (its own comment reads
"unsat => they are near"), so an `unknown` verdict *also* clears the
penalty: on two accesses whose near-query the backend answers `unknown`
throughout, the second access ends with `dram_added = 0` and the path
penalty is 87, not 174. -/
theorem c2_unknown_clears_dram_penalty :
    (est_cache_latency_z3 (fun _ => CheckRes.unknown) [] PEEP_WINDOW NEAR_DELTA
        [c2acc1, c2acc2]).2 = 87
    ∧ ((est_cache_latency_z3 (fun _ => CheckRes.unknown) [] PEEP_WINDOW NEAR_DELTA
        [c2acc1, c2acc2]).1.map (·.dram_added)) = [87, 0] := by
  decide

/-! ## Branch conditions `_branch_cond_z3` (`mem_access.py` lines 113-182) -/

/-- `_z3_reg_var(reg, idx)` stands for `Int(f"R{reg}_I{idx}")`. -/
def z3_reg_var (reg : Nat) (idx : Int) : Z3Expr := .regVar reg idx

/-- The per-path map `reg_id -> ArithRef` (`z3_regs`); a Python dict whose
assignment is modelled by consing (first match wins on lookup). -/
abbrev Z3Regs := List (Nat × Z3Expr)

/-- `_reg_z3`: the latest Z3 var for `reg`, or fall back to `R{reg}_I{idx-1}`. -/
def reg_z3 (z3_regs : Z3Regs) (reg : Nat) (idx : Nat) : Z3Expr :=
  (z3_regs.lookup reg).getD (z3_reg_var reg ((idx : Int) - 1))

/-- `_branch_cond_z3`: build a Z3 boolean for a conditional branch from the
opcode name (comparator prefix and `_K`/`_X` suffix), over Z3 *Int*
semantics.  `JA`/`CALL`/`EXIT`, one-part names, unknown suffixes, `JSET`
and unknown comparators yield `None`. -/
def branch_cond_z3 (idx : Nat) (instr : Instruction) (opinfo : OpInfo)
    (z3_regs : Z3Regs) : Option Z3Bool :=
  let name := opinfo.name
  if name = "JA" ∨ name = "CALL" ∨ name = "EXIT" then none
  else
    let parts := strSplitUnderscore name
    if parts.length < 2 then none
    else
      let cmp_tag := parts.headD ""
      let kind := parts.getLastD ""
      let lhs := reg_z3 z3_regs instr.dst idx
      let rhs? : Option Z3Expr :=
        if kind = "K" then some (.intVal instr.imm)
        else if kind = "X" then some (reg_z3 z3_regs instr.src idx)
        else none
      match rhs? with
      | none => none
      | some rhs =>
        let cmp_core := strRemove32 cmp_tag
        if cmp_core = "JEQ" then some (.eq lhs rhs)
        else if cmp_core = "JNE" then some (.ne lhs rhs)
        else if cmp_core = "JGT" then some (.gt lhs rhs)
        else if cmp_core = "JGE" then some (.ge lhs rhs)
        else if cmp_core = "JLT" then some (.lt lhs rhs)
        else if cmp_core = "JLE" then some (.le lhs rhs)
        else if cmp_core = "JSGT" then some (.gt lhs rhs)
        else if cmp_core = "JSGE" then some (.ge lhs rhs)
        else if cmp_core = "JSLT" then some (.lt lhs rhs)
        else if cmp_core = "JSLE" then some (.le lhs rhs)
        else if cmp_core = "JSET" then none
        else if cmp_core = "JFEQ" then some (.eq lhs rhs)
        else if cmp_core = "JFNE" then some (.ne lhs rhs)
        else if cmp_core = "JFOGT" then some (.gt lhs rhs)
        else if cmp_core = "JFOGE" then some (.ge lhs rhs)
        else if cmp_core = "JFOLT" then some (.lt lhs rhs)
        else if cmp_core = "JFOLE" then some (.le lhs rhs)
        else if cmp_core = "JFUGT" then some (.gt lhs rhs)
        else if cmp_core = "JFUGE" then some (.ge lhs rhs)
        else if cmp_core = "JFULT" then some (.lt lhs rhs)
        else if cmp_core = "JFULE" then some (.le lhs rhs)
        else none

/-- **C7 (counterexample).** At a concrete conditional instruction the
builder produces *no* condition at all for `JSET` (instead of
`(dst & src) != 0`), and produces the *same* condition for `JSGT_X` as for
`JGT_X` (the comment in the source reads "signed vs unsigned not
distinguished with Int"), so there are not two distinct comparator
families. -/
theorem c7_branch_cond_counterexample :
    branch_cond_z3 3 ⟨0x2d, 1, 2, 1, 5⟩ ⟨"JSET_K", some 8⟩ [] = none
    ∧ branch_cond_z3 3 ⟨0x6d, 1, 2, 1, 5⟩ ⟨"JSGT_X", some 3⟩ []
        = branch_cond_z3 3 ⟨0x2d, 1, 2, 1, 5⟩ ⟨"JGT_X", some 3⟩ []
    ∧ branch_cond_z3 3 ⟨0x2d, 1, 2, 1, 5⟩ ⟨"JGT_X", some 3⟩ []
        = some (.gt (z3_reg_var 1 2) (z3_reg_var 2 2)) := by
  decide

/-- **C7 (amended).** The builder models all of `JGT/JGE/JLT/JLE` and
`JSGT/JSGE/JSLT/JSLE` with one and the same comparator family over Z3
mathematical integers (no unsigned/signed distinction), models `JEQ`/`JNE`
as equality/disequality, and does not model `JSET` at all (it returns no
condition, for both operand kinds). -/
theorem c7_branch_cond_int_semantics (idx : Nat) (instr : Instruction)
    (lat lat' : Option Nat) (z3_regs : Z3Regs) :
    (branch_cond_z3 idx instr ⟨"JGT_X", lat⟩ z3_regs
        = some (.gt (reg_z3 z3_regs instr.dst idx) (reg_z3 z3_regs instr.src idx))
      ∧ branch_cond_z3 idx instr ⟨"JSGT_X", lat'⟩ z3_regs
        = branch_cond_z3 idx instr ⟨"JGT_X", lat⟩ z3_regs)
    ∧ (branch_cond_z3 idx instr ⟨"JGE_X", lat⟩ z3_regs
        = some (.ge (reg_z3 z3_regs instr.dst idx) (reg_z3 z3_regs instr.src idx))
      ∧ branch_cond_z3 idx instr ⟨"JSGE_X", lat'⟩ z3_regs
        = branch_cond_z3 idx instr ⟨"JGE_X", lat⟩ z3_regs)
    ∧ (branch_cond_z3 idx instr ⟨"JLT_X", lat⟩ z3_regs
        = some (.lt (reg_z3 z3_regs instr.dst idx) (reg_z3 z3_regs instr.src idx))
      ∧ branch_cond_z3 idx instr ⟨"JSLT_X", lat'⟩ z3_regs
        = branch_cond_z3 idx instr ⟨"JLT_X", lat⟩ z3_regs)
    ∧ (branch_cond_z3 idx instr ⟨"JLE_X", lat⟩ z3_regs
        = some (.le (reg_z3 z3_regs instr.dst idx) (reg_z3 z3_regs instr.src idx))
      ∧ branch_cond_z3 idx instr ⟨"JSLE_X", lat'⟩ z3_regs
        = branch_cond_z3 idx instr ⟨"JLE_X", lat⟩ z3_regs)
    ∧ (branch_cond_z3 idx instr ⟨"JGT_K", lat⟩ z3_regs
        = some (.gt (reg_z3 z3_regs instr.dst idx) (.intVal instr.imm))
      ∧ branch_cond_z3 idx instr ⟨"JSGT_K", lat'⟩ z3_regs
        = branch_cond_z3 idx instr ⟨"JGT_K", lat⟩ z3_regs)
    ∧ branch_cond_z3 idx instr ⟨"JEQ_X", lat⟩ z3_regs
        = some (.eq (reg_z3 z3_regs instr.dst idx) (reg_z3 z3_regs instr.src idx))
    ∧ branch_cond_z3 idx instr ⟨"JNE_X", lat⟩ z3_regs
        = some (.ne (reg_z3 z3_regs instr.dst idx) (reg_z3 z3_regs instr.src idx))
    ∧ branch_cond_z3 idx instr ⟨"JSET_X", lat⟩ z3_regs = none
    ∧ branch_cond_z3 idx instr ⟨"JSET_K", lat⟩ z3_regs = none :=
  ⟨⟨rfl, rfl⟩, ⟨rfl, rfl⟩, ⟨rfl, rfl⟩, ⟨rfl, rfl⟩, ⟨rfl, rfl⟩, rfl, rfl, rfl, rfl⟩

/-! ## Opcode-name classifiers (`mem_access.py` lines 85-104) -/

/-- `_is_load_mem`. -/
def is_load_mem (name : String) : Bool :=
  (strStartsWith name ("LDX_")
      && !((["IMM", "ABS", "IND"] : List String).any (fun t => strContains name t)))
    || strStartsWith name ("LD_MEM") || strStartsWith name ("LDX_MEM")

/-- `_is_store_mem`. -/
def is_store_mem (name : String) : Bool :=
  (strStartsWith name ("STX_")
      && !((["IMM", "ABS", "IND"] : List String).any (fun t => strContains name t)))
    || (strStartsWith name ("ST_")
      && !((["IMM", "ABS", "IND"] : List String).any (fun t => strContains name t)))
    || (strContains name ("MEMSX")
      && (strStartsWith name ("STX_") || strStartsWith name ("ST_")))

/-- `_is_fpu_mem`. -/
def is_fpu_mem (name : String) : Bool :=
  strStartsWith name ("FLDX_") || strStartsWith name ("FSTX_")
    || strStartsWith name ("FLD_") || strStartsWith name ("FST_")

/-- `_guess_size_from_name`. -/
def guess_size_from_name (name : String) : Nat :=
  if strEndsWith name ("_DW") then 8
  else if strEndsWith name ("_W") then 4
  else if strEndsWith name ("_H") then 2
  else if strEndsWith name ("_B") then 1
  else 4

/-- `_is_mem_like` (local helper of `_apply_alu_update_z3`). -/
def is_mem_like (n : String) : Bool :=
  is_fpu_mem n || is_load_mem n || is_store_mem n

/-! ## Symbolic register update `_apply_alu_update` (`mem_access.py` 186-225) -/

def apply_alu_update (instr : Instruction) (opinfo : OpInfo)
    (st : RegisterState) : RegisterState :=
  let name := opinfo.name
  let dst := instr.dst
  let src := instr.src
  let imm := instr.imm
  if name = "MOV_K" ∨ name = "MOV64_K" then regSet st dst (.const imm)
  else if name = "MOV_X" ∨ name = "MOV64_X" then regSet st dst (st src)
  else if name = "ADD_K" ∨ name = "ADD64_K" then
    match st dst with
    | .ptr a => regSet st dst (.ptr ⟨a.base, a.offset + imm⟩)
    | .const c => regSet st dst (.const (c + imm))
    | .unknown => regSet st dst .unknown
  else if name = "SUB_K" ∨ name = "SUB64_K" then
    match st dst with
    | .ptr a => regSet st dst (.ptr ⟨a.base, a.offset - imm⟩)
    | .const c => regSet st dst (.const (c - imm))
    | .unknown => regSet st dst .unknown
  else if name = "ADD_X" ∨ name = "ADD64_X" ∨ name = "SUB_X" ∨ name = "SUB64_X" then
    match st src with
    | .const delta =>
      if strStartsWith name ("ADD") then
        match st dst with
        | .ptr a => regSet st dst (.ptr ⟨a.base, a.offset + delta⟩)
        | .const c => regSet st dst (.const (c + delta))
        | .unknown => regSet st dst .unknown
      else
        match st dst with
        | .ptr a => regSet st dst (.ptr ⟨a.base, a.offset - delta⟩)
        | .const c => regSet st dst (.const (c - delta))
        | .unknown => regSet st dst .unknown
    | _ => regSet st dst .unknown
  else if (["AND", "OR", "XOR", "ARSH", "RSH", "LSH", "NEG", "MOD", "DIV", "MUL"]
      : List String).any (fun p => strStartsWith name p) then
    regSet st dst .unknown
  else st

/-! ## Z3-level ALU constraints `_apply_alu_update_z3` (`mem_access.py` 316-428) -/

/-- `_z3_imm_addr_symbol`: `Int(f"addr_{imm}")` (the source formats the
immediate in hex; the rendering is only a symbol name and stays injective). -/
def z3_imm_addr_name (imm : Int) : String := "addr_" ++ toString imm

/-- `_apply_alu_update_z3`: emit constraints for one ALU/IMM instruction and
advance the register map; everything else havocs the destination (fresh
unconstrained variable).  Returns the updated `(z3_regs, solver)`. -/
def apply_alu_update_z3 (idx : Nat) (instr : Instruction) (opinfo : OpInfo)
    (z3_regs : Z3Regs) (solver : List Z3Bool) : Z3Regs × List Z3Bool :=
  let raw := opinfo.name
  let dst := instr.dst
  let src := instr.src
  let imm := instr.imm
  let dst_var := z3_reg_var dst (idx : Int)
  let prev := fun (reg : Nat) =>
    (z3_regs.lookup reg).getD (z3_reg_var reg ((idx : Int) - 1))
  let name := if strStartsWith raw ("F") && !is_mem_like raw
    then (⟨raw.data.tail⟩ : String) else raw
  if name = "MOV_K" ∨ name = "MOV64_K" then
    ((dst, dst_var) :: z3_regs, solver ++ [.eq dst_var (.intVal imm)])
  else if name = "MOV_X" ∨ name = "MOV64_X" then
    ((dst, dst_var) :: z3_regs, solver ++ [.eq dst_var (prev src)])
  else if name = "ADD_K" ∨ name = "ADD64_K" then
    ((dst, dst_var) :: z3_regs, solver ++ [.eq dst_var (.add (prev dst) (.intVal imm))])
  else if name = "SUB_K" ∨ name = "SUB64_K" then
    ((dst, dst_var) :: z3_regs, solver ++ [.eq dst_var (.sub (prev dst) (.intVal imm))])
  else if name = "ADD_X" ∨ name = "ADD64_X" ∨ name = "SUB_X" ∨ name = "SUB64_X" then
    if strStartsWith name ("ADD") then
      ((dst, dst_var) :: z3_regs, solver ++ [.eq dst_var (.add (prev dst) (prev src))])
    else
      ((dst, dst_var) :: z3_regs, solver ++ [.eq dst_var (.sub (prev dst) (prev src))])
  else if name = "NEG" ∨ name = "NEG64" then
    ((dst, dst_var) :: z3_regs, solver ++ [.eq dst_var (.neg (prev dst))])
  else if name = "MUL_K" ∨ name = "MUL64_K" then
    ((dst, dst_var) :: z3_regs, solver ++ [.eq dst_var (.mul (prev dst) (.intVal imm))])
  else if name = "MUL_X" ∨ name = "MUL64_X" then
    ((dst, dst_var) :: z3_regs, solver ++ [.eq dst_var (.mul (prev dst) (prev src))])
  else if (["LD_IMM_W", "LD_IMM_H", "LD_IMM_B", "LDDW",
      "LDX_IMM_W", "LDX_IMM_H", "LDX_IMM_B", "LDX_IMM_DW"]
      : List String).contains name then
    ((dst, dst_var) :: z3_regs, solver ++ [.eq dst_var (.sym (z3_imm_addr_name imm))])
  else
    ((dst, dst_var) :: z3_regs, solver)

/-! ## `_mem_access_from_instr` (`mem_access.py` lines 240-313) -/

/-- Build the `MemoryAccess` (symbolic + Z3 address) for a load/store/FPU
memory instruction or a map-helper `CALL`; for `CALL` the function also
rebinds `R0` (both symbolically and in `z3_regs`).  Returns
`(mem?, z3_addr?, st, z3_regs)`. -/
def mem_access_from_instr (idx : Nat) (instr : Instruction) (opinfo : OpInfo)
    (st : RegisterState) (z3_regs : Z3Regs) :
    Option MemoryAccess × Option Z3Expr × RegisterState × Z3Regs :=
  let name := opinfo.name
  let base_latency := opinfo.latency.getD 0
  let size := guess_size_from_name name
  if is_load_mem name then
    let base_reg := instr.src
    let off := instr.off
    match st base_reg with
    | .ptr a =>
      let addr : Option SymbolicAddr := some ⟨a.base, a.offset + off⟩
      let z3_addr : Option Z3Expr := some (.add (reg_z3 z3_regs base_reg idx) (.intVal off))
      (some ⟨idx, "ld", addr, size, base_latency, 0, z3_addr⟩, z3_addr, st, z3_regs)
    | _ => (some ⟨idx, "ld", none, size, base_latency, 0, none⟩, none, st, z3_regs)
  else if is_store_mem name then
    let base_reg := instr.dst
    let off := instr.off
    match st base_reg with
    | .ptr a =>
      let addr : Option SymbolicAddr := some ⟨a.base, a.offset + off⟩
      let z3_addr : Option Z3Expr := some (.add (reg_z3 z3_regs base_reg idx) (.intVal off))
      (some ⟨idx, "st", addr, size, base_latency, 0, z3_addr⟩, z3_addr, st, z3_regs)
    | _ => (some ⟨idx, "st", none, size, base_latency, 0, none⟩, none, st, z3_regs)
  else if is_fpu_mem name then
    let isF_load := strStartsWith name ("FLDX_") || strStartsWith name ("FLD_")
    let base_reg := if isF_load then instr.src else instr.dst
    let off := instr.off
    let typ := if isF_load then "fldx" else "fstx"
    match st base_reg with
    | .ptr a =>
      let addr : Option SymbolicAddr := some ⟨a.base, a.offset + off⟩
      let z3_addr : Option Z3Expr := some (.add (reg_z3 z3_regs base_reg idx) (.intVal off))
      (some ⟨idx, typ, addr, size, base_latency, 0, z3_addr⟩, z3_addr, st, z3_regs)
    | _ => (some ⟨idx, typ, none, size, base_latency, 0, none⟩, none, st, z3_regs)
  else if name = "CALL" then
    let helper_id := instr.imm
    if helper_id = BPF_FUNC_map_lookup_elem then
      let base_name := match st 1 with
        | .ptr a => "map:" ++ a.base
        | _ => "map:?"
      let z3_addr : Z3Expr := .sym base_name
      (some ⟨idx, "map", some ⟨base_name, 0⟩, 8, base_latency, 0, some z3_addr⟩,
        some z3_addr,
        regSet st 0 (.ptr ⟨base_name, 0⟩),
        (0, z3_addr) :: z3_regs)
    else if helper_id = BPF_FUNC_map_update_elem ∨ helper_id = BPF_FUNC_map_delete_elem then
      let base_name := match st 1 with
        | .ptr a => "map:" ++ a.base
        | _ => "map:?"
      let z3_addr : Z3Expr := .sym base_name
      (some ⟨idx, "map", some ⟨base_name, 0⟩, 8, base_latency, 0, some z3_addr⟩,
        some z3_addr,
        regSet st 0 .unknown,
        (0, z3_reg_var 0 (idx : Int)) :: z3_regs)
    else (none, none, st, z3_regs)
  else (none, none, st, z3_regs)

/-! ## `_scan_block` (`mem_access.py` lines 431-515) -/

/-- The state threaded through the scan of a basic block (the source's
mutable locals plus the solver's assertion list). -/
structure ScanOut where
  st : RegisterState
  mem : List MemoryAccess
  addrMap : List (Nat × SymbolicAddr)
  z3AddrMap : List (Nat × Z3Expr)
  z3Regs : Z3Regs
  solver : List Z3Bool

/-- One iteration of the `for idx in range(start, end + 1)` loop: skip
unknown opcodes, update the symbolic state, add Z3 constraints, record the
memory access (if any). -/
def scanStep (idx : Nat) (instr : Instruction) (acc : ScanOut) : ScanOut :=
  match opinfo_for instr with
  | none => acc
  | some opinfo =>
    let st1 := apply_alu_update instr opinfo acc.st
    let rs1 := apply_alu_update_z3 idx instr opinfo acc.z3Regs acc.solver
    let out := mem_access_from_instr idx instr opinfo st1 rs1.1
    match out.1 with
    | none => ⟨out.2.2.1, acc.mem, acc.addrMap, acc.z3AddrMap, out.2.2.2, rs1.2⟩
    | some mem =>
      let addrMap' :=
        if (["ld", "st", "fldx", "fstx"] : List String).contains mem.type then
          match mem.addr with
          | some a => acc.addrMap ++ [(idx, a)]
          | none => acc.addrMap
        else acc.addrMap
      let z3AddrMap' :=
        if (["ld", "st", "fldx", "fstx"] : List String).contains mem.type
            ∧ mem.addr.isSome then
          match out.2.1 with
          | some z3a => acc.z3AddrMap ++ [(idx, z3a)]
          | none => acc.z3AddrMap
        else acc.z3AddrMap
      ⟨out.2.2.1, acc.mem ++ [mem], addrMap', z3AddrMap', out.2.2.2, rs1.2⟩

/-- `_scan_block`: fold the step over the block's instruction range,
starting from cloned inputs and an empty set of per-block containers. -/
def scan_block (instructions : List Instruction) (start e : Nat)
    (st_in : RegisterState) (z3_regs_in : Z3Regs) (solver : List Z3Bool) : ScanOut :=
  (List.range' start (e + 1 - start)).foldl
    (fun acc idx => scanStep idx (instructions.getD idx default) acc)
    ⟨st_in, [], [], [], z3_regs_in, solver⟩

/-! ## Claim C3: unknown opcodes -/

/-- A three-instruction program whose middle opcode `0xEF` (class ALU64,
code `0xE`) is present in neither latency catalog. -/
def c3prog : List Instruction := [⟨0xb7, 1, 0, 0, 7⟩, ⟨0xEF, 3, 2, 0, 0⟩, ⟨0x95, 0, 0, 0, 0⟩]

/-- **C3 (counterexample).** An opcode in neither catalog does not make
costing or execution fail: `instr_to_runtime` over the whole range returns
the sum of the *other* latencies (4 + 0 + 2), and `_scan_block` over the
unknown instruction is the identity (no state change, no access, no
constraint) — the instruction is silently skipped and analysis continues,
contradicting "raises a fatal, surfaced UnknownOpcode error". -/
theorem c3_unknown_opcode_counterexample :
    BPF_INFO.lookup 0xEF = none ∧ BPF_INFO_FPU.lookup 0xEF = none
    ∧ instr_to_runtime c3prog 0 2 = 6
    ∧ scan_block c3prog 1 1 init_state [] [] = ⟨init_state, [], [], [], [], []⟩ :=
  ⟨by decide, by decide, by decide, rfl⟩

/-- **C3 (amended).** An instruction whose opcode is in neither catalog is
silently skipped: it contributes `0` to `instr_to_runtime`, and
`_scan_block` over it changes nothing (same register state, no memory
access, no address entries, no constraints) — no error is raised and the
analysis continues. -/
theorem c3_unknown_opcode_skipped (instructions : List Instruction) (idx : Nat)
    (st : RegisterState) (z3_regs : Z3Regs) (solver : List Z3Bool)
    (h1 : BPF_INFO.lookup (instructions.getD idx default).opcode = none)
    (h2 : BPF_INFO_FPU.lookup (instructions.getD idx default).opcode = none) :
    instr_to_runtime instructions idx idx = 0
    ∧ scan_block instructions idx idx st z3_regs solver
        = ⟨st, [], [], [], z3_regs, solver⟩ := by
  have hr : idx + 1 - idx = 1 := by omega
  simp only [List.getD_eq_getElem?_getD] at h1 h2
  constructor
  · unfold instr_to_runtime
    rw [hr]
    simp [List.range', h1]
  · unfold scan_block
    rw [hr]
    by_cases hf : is_fpu_instr (instructions.getD idx default) <;>
      simp only [List.getD_eq_getElem?_getD] at hf <;>
      simp [List.range', scanStep, opinfo_for, hf, h1, h2]

/-- Witness for C3 (amended) at the concrete program `c3prog`, index 1. -/
theorem c3_unknown_opcode_skipped_witness :
    BPF_INFO.lookup ((c3prog.getD 1 default)).opcode = none
    ∧ BPF_INFO_FPU.lookup ((c3prog.getD 1 default)).opcode = none
    ∧ (instr_to_runtime c3prog 1 1 = 0
      ∧ scan_block c3prog 1 1 init_state [] [] = ⟨init_state, [], [], [], [], []⟩) :=
  ⟨by decide, by decide,
    c3_unknown_opcode_skipped c3prog 1 init_state [] [] (by decide) (by decide)⟩

/-! ## Block graphs and `dfs_blocks` (`block.py`, `dfs.py` lines 302-353)

`Block` objects reference successor objects; to also represent the cyclic
graphs `dfs_blocks` defends against, blocks live in an arena and `next`
holds node ids (`endIdx` is the source's `end` field, renamed because `end`
is reserved in Lean).  Recursion is fueled; `.outOfFuel` marks an
exploration that did not complete within the given depth. -/

structure ANode where
  start : Nat
  endIdx : Nat
  next : List Nat
deriving DecidableEq, Repr

abbrev BlockGraph := List ANode

/-- Every successor id points into the arena (automatic for Python object
graphs). -/
def graphWF (g : BlockGraph) : Prop :=
  ∀ nd ∈ g, ∀ s ∈ nd.next, s < g.length

inductive DfsRes (α : Type) where
  | ok : α → DfsRes α
  | err : DfsRes α
  | outOfFuel : DfsRes α
deriving DecidableEq, Repr

/-- Merge the subtree upper bounds of two sibling explorations: the running
`path_runtime_ub` maximum of `dfs_blocks`, with errors and fuel exhaustion
propagated. -/
def dfsJoin : DfsRes Nat → DfsRes Nat → DfsRes Nat
  | .ok m, .ok m' => .ok (max m m')
  | .ok _, e => e
  | e, _ => e

/-- The recursive `dfs` of `dfs_blocks`: cut back-edges (`block in onpath`
returns without contribution), add the block's runtime, at a leaf record the
path runtime, otherwise fold over the successors. -/
def dfsBlocksAux (instructions : List Instruction) (g : BlockGraph) :
    Nat → List Nat → Nat → Nat → DfsRes Nat
  | 0, _, _, _ => .outOfFuel
  | fuel + 1, onpath, v, path_runtime =>
    if v ∈ onpath then .ok 0
    else
      match g[v]? with
      | none => .err
      | some nd =>
        let rt := path_runtime + instr_to_runtime instructions nd.start nd.endIdx
        if nd.next.isEmpty then .ok rt
        else
          nd.next.foldl
            (fun acc nxt =>
              dfsJoin acc (dfsBlocksAux instructions g fuel (v :: onpath) nxt rt))
            (.ok 0)

/-- `dfs_blocks`: `first_block is None` (empty graph) gives `0`; otherwise
run the DFS from node 0 with an empty on-path set. -/
def dfs_blocks (instructions : List Instruction) (g : BlockGraph) (fuel : Nat) :
    DfsRes Nat :=
  if g.isEmpty then .ok 0 else dfsBlocksAux instructions g fuel [] 0 0

/-! ### Termination of `dfs_blocks` (claim C9, amended part) -/

theorem nodup_lt_length_le {l : List Nat} {n : Nat}
    (hnd : l.Nodup) (hlt : ∀ x ∈ l, x < n) : l.length ≤ n := by
  have hsub : l.toFinset ⊆ Finset.range n := fun x hx =>
    Finset.mem_range.mpr (hlt x (List.mem_toFinset.mp hx))
  calc l.length = l.toFinset.card := (List.toFinset_card_of_nodup hnd).symm
  _ ≤ (Finset.range n).card := Finset.card_le_card hsub
  _ = n := Finset.card_range n

theorem foldl_dfsJoin_ok (f : Nat → DfsRes Nat) (l : List Nat)
    (h : ∀ s ∈ l, ∃ n, f s = .ok n) :
    ∀ init, ∃ n, l.foldl (fun acc nxt => dfsJoin acc (f nxt)) (.ok init) = .ok n := by
  induction l with
  | nil => exact fun init => ⟨init, rfl⟩
  | cons s rest ih =>
    intro init
    obtain ⟨m, hm⟩ := h s (List.mem_cons_self s rest)
    have hrest : ∀ x ∈ rest, ∃ n, f x = .ok n := fun x hx => h x (List.mem_cons_of_mem s hx)
    simpa [List.foldl, hm, dfsJoin] using (ih hrest (max init m))

/-- On-path cutting bounds the recursion: with fuel exceeding the number of
blocks not yet on the path, the DFS completes. -/
theorem dfsBlocksAux_completes (instructions : List Instruction) (g : BlockGraph)
    (hwf : graphWF g) :
    ∀ fuel onpath v rt, v < g.length → onpath.Nodup →
      (∀ x ∈ onpath, x < g.length) → g.length - onpath.length < fuel →
      ∃ n, dfsBlocksAux instructions g fuel onpath v rt = .ok n := by
  intro fuel
  induction fuel with
  | zero =>
    intro onpath v rt hv hnd hlt hfuel
    omega
  | succ fuel ih =>
    intro onpath v rt hv hnd hlt hfuel
    by_cases hmem : v ∈ onpath
    · exact ⟨0, by simp [dfsBlocksAux, hmem]⟩
    · have hget : g[v]? = some g[v] := List.getElem?_eq_getElem hv
      have hndmem : g[v] ∈ g := List.getElem_mem hv
      by_cases hempty : g[v].next.isEmpty
      · refine ⟨rt + instr_to_runtime instructions g[v].start g[v].endIdx, ?_⟩
        simp [dfsBlocksAux, hmem, hget, hempty]
      · have hlen : onpath.length + 1 ≤ g.length := by
          have hcons : (v :: onpath).Nodup := List.nodup_cons.mpr ⟨hmem, hnd⟩
          have hle := nodup_lt_length_le hcons (by
            intro x hx
            rcases List.mem_cons.mp hx with h | h
            · exact h ▸ hv
            · exact hlt x h)
          simpa using hle
        have hchild : ∀ s ∈ g[v].next,
            ∃ n, dfsBlocksAux instructions g fuel (v :: onpath)
              s (rt + instr_to_runtime instructions g[v].start g[v].endIdx) = .ok n := by
          intro s hs
          apply ih
          · exact hwf g[v] hndmem s hs
          · exact List.nodup_cons.mpr ⟨hmem, hnd⟩
          · intro x hx
            rcases List.mem_cons.mp hx with h | h
            · exact h ▸ hv
            · exact hlt x h
          · simp only [List.length_cons]
            omega
        obtain ⟨n, hn⟩ := foldl_dfsJoin_ok _ _ hchild 0
        refine ⟨n, ?_⟩
        simp only [dfsBlocksAux, if_neg hmem, hget]
        simp only [hempty, if_neg]
        exact hn

/-- **C9 (amended).** The plain DFS `dfs_blocks` terminates on *every*
finite block graph — cyclic graphs included — because a successor already on
the current path is cut on first visit: with any fuel exceeding the number
of blocks, the exploration completes with a result.  (The memory-aware DFS
`dfs_blocks_with_mem` has no such cut and diverges on cyclic graphs — see
the counterexample theorem — but the graphs the repository's builder
produces are trees, on which both DFSs terminate.) -/
theorem c9_dfs_blocks_terminates_on_cycles (instructions : List Instruction)
    (g : BlockGraph) (fuel : Nat) (hwf : graphWF g) (hfuel : g.length < fuel) :
    ∃ n, dfs_blocks instructions g fuel = .ok n := by
  unfold dfs_blocks
  by_cases hg : g.isEmpty
  · exact ⟨0, by simp [hg]⟩
  · have hlen : 0 < g.length := by
      cases g with
      | nil => simp at hg
      | cons a l => simp
    have hres := dfsBlocksAux_completes instructions g hwf fuel [] 0 0 hlen
      List.nodup_nil (by simp) (by simpa using hfuel)
    simpa [hg] using hres

/-- A two-block graph with a back-edge at the first block (taken successor
of the conditional at index 0 is block 0 itself). -/
def c9wGraph : BlockGraph := [⟨0, 0, [0, 1]⟩, ⟨1, 1, []⟩]

/-- `JEQ_K r1, 0, off=-1` (a self back-edge) followed by `EXIT`. -/
def c9wProg : List Instruction := [⟨0x15, 1, 0, -1, 0⟩, ⟨0x95, 0, 0, 0, 0⟩]

/-- Witness for C9 (amended) on the concrete cyclic graph: the DFS
completes (with the single-iteration runtime 7 + 2 = 9). -/
theorem c9_dfs_blocks_terminates_on_cycles_witness :
    graphWF c9wGraph ∧ c9wGraph.length < 3
    ∧ ∃ n, dfs_blocks c9wProg c9wGraph 3 = .ok n :=
  ⟨by unfold graphWF; decide, by decide,
    c9_dfs_blocks_terminates_on_cycles c9wProg c9wGraph 3
      (by unfold graphWF; decide) (by decide)⟩

/-! ## `dfs_blocks_with_mem` (`mem_access.py` lines 558-704)

The shared solver's `push`/`add`/`pop` discipline appears as scoped list
extension: each recursive call receives the assertion stack it should see,
and the caller's stack is unchanged on return (`pop`).  The nonlocal
`runtime_ub` maximum and the leaf-merged program-level address maps become
components of the result; `visits` additionally records the blocks the DFS
enters, in order, for the exploration claims. -/

structure MemDfsOut where
  ub : Nat
  addrMap : List (Nat × SymbolicAddr)
  z3AddrMap : List (Nat × Z3Expr)
  visits : List Nat
deriving DecidableEq, Repr

/-- Merge sibling subtree results (maximum of bounds, union of summaries). -/
def memJoin : DfsRes MemDfsOut → DfsRes MemDfsOut → DfsRes MemDfsOut
  | .ok a, .ok b =>
    .ok ⟨max a.ub b.ub, a.addrMap ++ b.addrMap, a.z3AddrMap ++ b.z3AddrMap,
      a.visits ++ b.visits⟩
  | .ok _, e => e
  | e, _ => e

/-- Record the entry of block `v` in front of a subtree's visit list. -/
def prependVisit (v : Nat) : DfsRes MemDfsOut → DfsRes MemDfsOut
  | .ok o => .ok { o with visits := v :: o.visits }
  | e => e

/-- The inner `dfs` of `dfs_blocks_with_mem`; parameters mirror the Python
signature plus the solver stack: note that there is **no** cycle detection
and **no** `check()` call around the branch constraints — for a conditional
with condition `C` the taken successor is explored under `solver + [C]` and
the fall-through under `solver + [Not(C)]`, both unconditionally. -/
def dfsMemAux (instructions : List Instruction) (g : BlockGraph) (check : SolverFn)
    (window : Nat) (near : Int) :
    (fuel : Nat) → (v : Nat) → RegisterState → Z3Regs → List MemoryAccess →
    List (Nat × SymbolicAddr) → List (Nat × Z3Expr) → List Z3Bool → Nat →
    DfsRes MemDfsOut
  | 0, _, _, _, _, _, _, _, _ => .outOfFuel
  | fuel + 1, v, st_in, z3_regs_in, path_mem, path_addr, path_z3addr, solver, prt =>
    match g[v]? with
    | none => .err
    | some block =>
      let base_rt := instr_to_runtime instructions block.start block.endIdx
      let path_rt_next := prt + base_rt
      let sc := scan_block instructions block.start block.endIdx st_in z3_regs_in solver
      let mem_next := path_mem ++ sc.mem
      let addr_next := path_addr ++ sc.addrMap
      let z3_next := path_z3addr ++ sc.z3AddrMap
      if block.next.isEmpty then
        let dram_pen := (est_cache_latency_z3 check sc.solver window near mem_next).2
        .ok ⟨path_rt_next + dram_pen, addr_next, z3_next, [v]⟩
      else
        match instructions[block.endIdx]? with
        | none => .err
        | some term_instr =>
          match opinfo_for term_instr with
          | none => .err
          | some term_info =>
            match branch_cond_z3 block.endIdx term_instr term_info sc.z3Regs with
            | none =>
              if term_info.name = "JA" ∨ term_info.name = "CALL"
                  ∨ block.next.length = 1 then
                match block.next[0]? with
                | none => .err
                | some nxt =>
                  prependVisit v (dfsMemAux instructions g check window near fuel nxt
                    sc.st sc.z3Regs mem_next addr_next z3_next sc.solver path_rt_next)
              else if block.next.length = 2 then
                prependVisit v (block.next.foldl
                  (fun acc nxt => memJoin acc (dfsMemAux instructions g check window near
                    fuel nxt sc.st sc.z3Regs mem_next addr_next z3_next sc.solver
                    path_rt_next))
                  (.ok ⟨0, [], [], []⟩))
              else .err
            | some cond =>
              match block.next with
              | t :: f :: _ =>
                prependVisit v (memJoin
                  (dfsMemAux instructions g check window near fuel t
                    sc.st sc.z3Regs mem_next addr_next z3_next
                    (sc.solver ++ [cond]) path_rt_next)
                  (dfsMemAux instructions g check window near fuel f
                    sc.st sc.z3Regs mem_next addr_next z3_next
                    (sc.solver ++ [.not cond]) path_rt_next))
              | _ => .err

/-- `dfs_blocks_with_mem`: start at block 0 with `r10 = fp` in the Z3
register map and empty path containers. -/
def dfs_blocks_with_mem (instructions : List Instruction) (g : BlockGraph)
    (check : SolverFn) (window : Nat) (near : Int) (fuel : Nat) : DfsRes MemDfsOut :=
  if g.isEmpty then .ok ⟨0, [], [], []⟩
  else dfsMemAux instructions g check window near fuel 0 init_state
    [(10, Z3Expr.sym "fp")] [] [] [] [] 0

/-- The opcode name of the terminator at instruction index `e`. -/
def termName (instructions : List Instruction) (e : Nat) : Option String :=
  (instructions[e]?).bind (fun i => (opinfo_for i).map (·.name))

/-! ### Claim C9 (counterexample): no back-edge cut in the memory-aware DFS -/

/-- `JA off=-1`: a single instruction jumping to itself. -/
def c9loopProg : List Instruction := [⟨0x05, 0, 0, -1, 0⟩]

/-- The one-block graph whose only successor is itself. -/
def c9loopGraph : BlockGraph := [⟨0, 0, [0]⟩]

/-- `dfs_blocks_with_mem` never completes on the self-loop graph: for every
fuel bound (and from any state) the exploration runs out of fuel — the
function has no on-path set and follows the back-edge forever. -/
def dfsMemDivergesOnLoop : Prop :=
  ∀ fuel st z3regs mem am zm solver rt,
    dfsMemAux c9loopProg c9loopGraph (fun _ => CheckRes.unsat) PEEP_WINDOW NEAR_DELTA
      fuel 0 st z3regs mem am zm solver rt = .outOfFuel

/-- **C9 (counterexample).** On the concrete cyclic block graph
`c9loopGraph`, `dfs_blocks_with_mem` does *not* terminate: it exhausts any
fuel bound, because it lacks the back-edge detection the claim asserts.
(The claim's "back-edges are detected and cut on first visit" holds only for
`dfs_blocks`.) -/
theorem c9_mem_dfs_no_cycle_cut : dfsMemDivergesOnLoop := by
  intro fuel
  induction fuel with
  | zero => intro st z3regs mem am zm solver rt; rfl
  | succ fuel ih =>
    intro st z3regs mem am zm solver rt
    have hstep : dfsMemAux c9loopProg c9loopGraph (fun _ => CheckRes.unsat)
        PEEP_WINDOW NEAR_DELTA (fuel + 1) 0 st z3regs mem am zm solver rt
        = prependVisit 0 (dfsMemAux c9loopProg c9loopGraph (fun _ => CheckRes.unsat)
          PEEP_WINDOW NEAR_DELTA fuel 0
          (scan_block c9loopProg 0 0 st z3regs solver).st
          (scan_block c9loopProg 0 0 st z3regs solver).z3Regs
          (mem ++ (scan_block c9loopProg 0 0 st z3regs solver).mem)
          (am ++ (scan_block c9loopProg 0 0 st z3regs solver).addrMap)
          (zm ++ (scan_block c9loopProg 0 0 st z3regs solver).z3AddrMap)
          (scan_block c9loopProg 0 0 st z3regs solver).solver
          (rt + instr_to_runtime c9loopProg 0 0)) := rfl
    rw [hstep, ih]
    rfl

/-! ### Claim C1: branch handling of `dfs_blocks_with_mem` -/

theorem prependVisit_ok {v : Nat} {r : DfsRes MemDfsOut} {out : MemDfsOut}
    (h : prependVisit v r = .ok out) :
    ∃ o, r = .ok o ∧ out = { o with visits := v :: o.visits } := by
  cases r with
  | ok o =>
    refine ⟨o, rfl, ?_⟩
    cases h
    rfl
  | err => cases h
  | outOfFuel => cases h

theorem memJoin_ok {a b : DfsRes MemDfsOut} {out : MemDfsOut}
    (h : memJoin a b = .ok out) :
    ∃ oa ob, a = .ok oa ∧ b = .ok ob
      ∧ out = ⟨max oa.ub ob.ub, oa.addrMap ++ ob.addrMap,
          oa.z3AddrMap ++ ob.z3AddrMap, oa.visits ++ ob.visits⟩ := by
  cases a with
  | ok oa =>
    cases b with
    | ok ob =>
      refine ⟨oa, ob, rfl, rfl, ?_⟩
      cases h
      rfl
    | err => cases h
    | outOfFuel => cases h
  | err => cases h
  | outOfFuel => cases h

/-- A completed exploration's visit list starts with the block it entered. -/
theorem dfsMemAux_visits_head (I : List Instruction) (g : BlockGraph)
    (C : SolverFn) (W : Nat) (N : Int) (fuel v : Nat) (st : RegisterState)
    (rs : Z3Regs) (mem : List MemoryAccess) (am : List (Nat × SymbolicAddr))
    (zm : List (Nat × Z3Expr)) (solver : List Z3Bool) (rt : Nat)
    (out : MemDfsOut)
    (h : dfsMemAux I g C W N fuel v st rs mem am zm solver rt = .ok out) :
    ∃ rest, out.visits = v :: rest := by
  match fuel with
  | 0 => exact (DfsRes.noConfusion h)
  | fuel + 1 =>
    rcases hgv : g[v]? with _ | block <;> simp only [dfsMemAux, hgv] at h
    · exact (DfsRes.noConfusion h)
    by_cases hempty : block.next.isEmpty = true
    · rw [if_pos hempty] at h
      cases h
      exact ⟨[], rfl⟩
    rw [if_neg hempty] at h
    rcases hterm : I[block.endIdx]? with _ | term_instr <;> simp only [hterm] at h
    · exact (DfsRes.noConfusion h)
    rcases hinfo : opinfo_for term_instr with _ | term_info <;> simp only [hinfo] at h
    · exact (DfsRes.noConfusion h)
    rcases hcond : branch_cond_z3 block.endIdx term_instr term_info
        (scan_block I block.start block.endIdx st rs solver).z3Regs
      with _ | cond <;> simp only [hcond] at h
    · by_cases hsingle : term_info.name = "JA" ∨ term_info.name = "CALL"
          ∨ block.next.length = 1
      · rw [if_pos hsingle] at h
        rcases hnx : block.next[0]? with _ | nxt <;> simp only [hnx] at h
        · exact (DfsRes.noConfusion h)
        · obtain ⟨o, _, hout⟩ := prependVisit_ok h
          exact ⟨o.visits, by rw [hout]⟩
      · rw [if_neg hsingle] at h
        by_cases h2 : block.next.length = 2
        · rw [if_pos h2] at h
          obtain ⟨o, _, hout⟩ := prependVisit_ok h
          exact ⟨o.visits, by rw [hout]⟩
        · rw [if_neg h2] at h
          exact (DfsRes.noConfusion h)
    · rcases hnext : block.next with _ | ⟨t, rest2⟩ <;> simp only [hnext] at h
      · exact (DfsRes.noConfusion h)
      rcases rest2 with _ | ⟨f, rest3⟩ <;> simp only at h
      · exact (DfsRes.noConfusion h)
      · obtain ⟨o, _, hout⟩ := prependVisit_ok h
        exact ⟨o.visits, by rw [hout]⟩

/-- **C1 (amended).** In `dfs_blocks_with_mem`, every visited block with two
successors (whose terminator is known and is neither `JA` nor `CALL`) has
*both* successors explored: no `check()` is issued at the branch and no
successor is ever pruned — the condition `C` (when one is parsed) is merely
pushed around the taken recursion and `Not(C)` around the fall-through. -/
theorem c1_both_successors_explored (I : List Instruction) (g : BlockGraph)
    (C : SolverFn) (W : Nat) (N : Int) :
    ∀ fuel v st rs mem am zm solver rt out,
      dfsMemAux I g C W N fuel v st rs mem am zm solver rt = .ok out →
      ∀ u, u ∈ out.visits → ∀ nd t f, g[u]? = some nd →
        nd.next[0]? = some t → nd.next[1]? = some f →
        termName I nd.endIdx ≠ some "JA" → termName I nd.endIdx ≠ some "CALL" →
        t ∈ out.visits ∧ f ∈ out.visits := by
  intro fuel
  induction fuel with
  | zero =>
    intro v st rs mem am zm solver rt out h
    exact (DfsRes.noConfusion h)
  | succ fuel ih =>
    intro v st rs mem am zm solver rt out h u hu nd t f hnd ht hf hja hcall
    rcases hgv : g[v]? with _ | block <;> simp only [dfsMemAux, hgv] at h
    · exact (DfsRes.noConfusion h)
    by_cases hempty : block.next.isEmpty = true
    · rw [if_pos hempty] at h
      cases h
      simp only [List.mem_singleton] at hu
      subst hu
      injection (hgv.symm.trans hnd) with hbn
      rw [← hbn] at ht
      rw [List.isEmpty_iff] at hempty
      rw [hempty] at ht
      exact (Option.noConfusion ht)
    rw [if_neg hempty] at h
    rcases hterm : I[block.endIdx]? with _ | term_instr <;> simp only [hterm] at h
    · exact (DfsRes.noConfusion h)
    rcases hinfo : opinfo_for term_instr with _ | term_info <;> simp only [hinfo] at h
    · exact (DfsRes.noConfusion h)
    rcases hcond : branch_cond_z3 block.endIdx term_instr term_info
        (scan_block I block.start block.endIdx st rs solver).z3Regs
      with _ | cond <;> simp only [hcond] at h
    · by_cases hsingle : term_info.name = "JA" ∨ term_info.name = "CALL"
          ∨ block.next.length = 1
      · rw [if_pos hsingle] at h
        rcases hnx : block.next[0]? with _ | nxt <;> simp only [hnx] at h
        · exact (DfsRes.noConfusion h)
        obtain ⟨o, hrec, hout⟩ := prependVisit_ok h
        have hvo : out.visits = v :: o.visits := by rw [hout]
        rw [hvo] at hu
        rcases List.mem_cons.mp hu with hu | hu
        · subst hu
          injection (hgv.symm.trans hnd) with hbn
          rw [← hbn] at ht hf hja hcall
          have hname : termName I block.endIdx = some term_info.name := by
            simp [termName, hterm, hinfo]
          rcases hsingle with hs | hs | hs
          · exact absurd (hname.trans (by rw [hs])) hja
          · exact absurd (hname.trans (by rw [hs])) hcall
          · have hlen : 1 < block.next.length := (List.getElem?_eq_some.mp hf).1
            omega
        · obtain ⟨h1, h2⟩ := ih nxt _ _ _ _ _ _ _ _ hrec u hu nd t f hnd ht hf hja hcall
          rw [hvo]
          exact ⟨List.mem_cons_of_mem _ h1, List.mem_cons_of_mem _ h2⟩
      · rw [if_neg hsingle] at h
        by_cases h2 : block.next.length = 2
        · rw [if_pos h2] at h
          obtain ⟨t', f', hnl⟩ := List.length_eq_two.mp h2
          obtain ⟨o, hfold, hout⟩ := prependVisit_ok h
          have hvo : out.visits = v :: o.visits := by rw [hout]
          rw [hnl] at hfold
          simp only [List.foldl] at hfold
          obtain ⟨oj, o2, hj, hr2, hoeq⟩ := memJoin_ok hfold
          obtain ⟨oz, o1, hz, hr1, hjeq⟩ := memJoin_ok hj
          cases hz
          have hov : o.visits = o1.visits ++ o2.visits := by
            rw [hoeq, hjeq]
            simp
          rw [hvo] at hu ⊢
          rcases List.mem_cons.mp hu with hu | hu
          · subst hu
            injection (hgv.symm.trans hnd) with hbn
            rw [← hbn, hnl] at ht hf
            have ht' : t' = t := by simpa using ht
            have hf' : f' = f := by simpa using hf
            obtain ⟨r1, hv1⟩ := dfsMemAux_visits_head I g C W N fuel t' _ _ _ _ _ _ _ _ hr1
            obtain ⟨r2, hv2⟩ := dfsMemAux_visits_head I g C W N fuel f' _ _ _ _ _ _ _ _ hr2
            constructor
            · exact List.mem_cons_of_mem _ (by rw [hov, ← ht']; simp [hv1])
            · exact List.mem_cons_of_mem _ (by rw [hov, ← hf']; simp [hv2])
          · rw [hov] at hu
            rcases List.mem_append.mp hu with hu | hu
            · obtain ⟨h1, h2⟩ := ih t' _ _ _ _ _ _ _ _ hr1 u hu nd t f hnd ht hf hja hcall
              refine ⟨List.mem_cons_of_mem _ ?_, List.mem_cons_of_mem _ ?_⟩ <;>
                rw [hov] <;> simp [h1, h2]
            · obtain ⟨h1, h2⟩ := ih f' _ _ _ _ _ _ _ _ hr2 u hu nd t f hnd ht hf hja hcall
              refine ⟨List.mem_cons_of_mem _ ?_, List.mem_cons_of_mem _ ?_⟩ <;>
                rw [hov] <;> simp [h1, h2]
        · rw [if_neg h2] at h
          exact (DfsRes.noConfusion h)
    · rcases hnext : block.next with _ | ⟨t', rest2⟩ <;> simp only [hnext] at h
      · exact (DfsRes.noConfusion h)
      rcases rest2 with _ | ⟨f', rest3⟩ <;> simp only at h
      · exact (DfsRes.noConfusion h)
      obtain ⟨o, hjoin, hout⟩ := prependVisit_ok h
      have hvo : out.visits = v :: o.visits := by rw [hout]
      obtain ⟨o1, o2, hr1, hr2, hoeq⟩ := memJoin_ok hjoin
      have hov : o.visits = o1.visits ++ o2.visits := by rw [hoeq]
      rw [hvo] at hu ⊢
      rcases List.mem_cons.mp hu with hu | hu
      · subst hu
        injection (hgv.symm.trans hnd) with hbn
        rw [← hbn, hnext] at ht hf
        have ht' : t' = t := by simpa using ht
        have hf' : f' = f := by simpa using hf
        obtain ⟨r1, hv1⟩ := dfsMemAux_visits_head I g C W N fuel t' _ _ _ _ _ _ _ _ hr1
        obtain ⟨r2, hv2⟩ := dfsMemAux_visits_head I g C W N fuel f' _ _ _ _ _ _ _ _ hr2
        constructor
        · exact List.mem_cons_of_mem _ (by rw [hov, ← ht']; simp [hv1])
        · exact List.mem_cons_of_mem _ (by rw [hov, ← hf']; simp [hv2])
      · rw [hov] at hu
        rcases List.mem_append.mp hu with hu | hu
        · obtain ⟨h1, h2⟩ := ih t' _ _ _ _ _ _ _ _ hr1 u hu nd t f hnd ht hf hja hcall
          refine ⟨List.mem_cons_of_mem _ ?_, List.mem_cons_of_mem _ ?_⟩ <;>
            rw [hov] <;> simp [h1, h2]
        · obtain ⟨h1, h2⟩ := ih f' _ _ _ _ _ _ _ _ hr2 u hu nd t f hnd ht hf hja hcall
          refine ⟨List.mem_cons_of_mem _ ?_, List.mem_cons_of_mem _ ?_⟩ <;>
            rw [hov] <;> simp [h1, h2]

/-- Spec seed test 3: `MOV64_K r1,1; MOV64_K r2,2; JEQ_X r1,r2,+1;
MOV64_K r3,3; EXIT` — the taken branch's condition is unsatisfiable. -/
def c1prog : List Instruction :=
  [⟨0xb7, 1, 0, 0, 1⟩, ⟨0xb7, 2, 0, 0, 2⟩, ⟨0x1d, 1, 2, 1, 0⟩,
   ⟨0xb7, 3, 0, 0, 3⟩, ⟨0x95, 0, 0, 0, 0⟩]

/-- Its block graph: the conditional block `[0,2]`, the taken block `[4,4]`
and the fall-through block `[3,4]`. -/
def c1graph : BlockGraph := [⟨0, 2, [1, 2]⟩, ⟨4, 4, []⟩, ⟨3, 4, []⟩]

/-- **C1 (counterexample).** Even with a solver that answers `unsat` to
*every* query (so a `check()` after pushing the branch condition would
return `unsat`), the path explorer still visits the taken successor
(block 1 appears in the visit trace `[0, 1, 2]`): the claimed
push-`check()`-prune sequence does not exist — `dfs_blocks_with_mem` calls
`check()` only inside the leaf cache model and recurses into both branch
successors unconditionally. -/
theorem c1_unsat_taken_successor_still_visited :
    dfs_blocks_with_mem c1prog c1graph (fun _ => CheckRes.unsat)
        PEEP_WINDOW NEAR_DELTA 10
      = .ok ⟨17, [], [], [0, 1, 2]⟩ := by
  decide

/-- Witness for C1 (amended) on `c1prog`/`c1graph`: the conditional block 0
(terminator `JEQ_X`, neither `JA` nor `CALL`) has both successors 1 and 2 in
the visit trace. -/
theorem c1_both_successors_explored_witness :
    dfsMemAux c1prog c1graph (fun _ => CheckRes.unsat) PEEP_WINDOW NEAR_DELTA 10 0
        init_state [(10, Z3Expr.sym "fp")] [] [] [] [] 0
      = .ok ⟨17, [], [], [0, 1, 2]⟩
    ∧ (1 ∈ (⟨17, [], [], [0, 1, 2]⟩ : MemDfsOut).visits
      ∧ 2 ∈ (⟨17, [], [], [0, 1, 2]⟩ : MemDfsOut).visits) :=
  ⟨by decide,
    c1_both_successors_explored c1prog c1graph (fun _ => CheckRes.unsat)
      PEEP_WINDOW NEAR_DELTA 10 0 init_state [(10, Z3Expr.sym "fp")] [] [] [] [] 0
      ⟨17, [], [], [0, 1, 2]⟩ (by decide) 0 (by decide) ⟨0, 2, [1, 2]⟩ 1 2
      (by decide) (by decide) (by decide) (by decide) (by decide)⟩

/-! ## The CFG builder `get_blocks_tree` (`main.py` lines 301-433)

`get_blocks_tree` returns a *tree* of `Block` objects; every recursive call
constructs fresh blocks (`seen` only guards against path cycles, copied per
branch).  The builder only ever creates blocks with zero successors (EXIT),
one successor (JA / CALL src=1) or two successors (conditional), which the
three `BTree` constructors mirror; errors are the source's exceptions, and
the second `.ok` component records every `Block(start_idx, idx)`
construction in order (including the blocks a helper-`CALL` arm constructs
and discards).  Python list indexing (negative indices wrap) is `pyGet`. -/

inductive BTree where
  | mk0 : Int → Int → BTree
  | mk1 : Int → Int → BTree → BTree
  | mk2 : Int → Int → BTree → BTree → BTree
deriving DecidableEq, Repr

/-- The block's `start` field. -/
def BTree.startI : BTree → Int
  | .mk0 s _ => s
  | .mk1 s _ _ => s
  | .mk2 s _ _ _ => s

/-- All `(start, end)` pairs occurring in the tree (with multiplicity). -/
def BTree.nodes : BTree → List (Int × Int)
  | .mk0 s e => [(s, e)]
  | .mk1 s e c => (s, e) :: c.nodes
  | .mk2 s e a b => (s, e) :: (a.nodes ++ b.nodes)

inductive BuildErr where
  | loopDetected
  | uncaughtOpcode
  | unreachable
  | indexError
deriving DecidableEq, Repr

inductive BuildRes where
  | ok : BTree → List (Int × Int) → BuildRes
  | err : BuildErr → BuildRes
  | outOfFuel : BuildRes
deriving DecidableEq, Repr

/-- Python list indexing: nonnegative from the front, negative wraps from
the back, out of range is an `IndexError`. -/
def pyGet (l : List Instruction) (idx : Int) : Option Instruction :=
  if 0 ≤ idx then l[idx.toNat]?
  else if 0 ≤ (l.length : Int) + idx then l[((l.length : Int) + idx).toNat]?
  else none

def EXIT_JMP : Nat := BpfCode.JMP.EXIT ||| BpfS.K ||| BpfClass.JMP

def JA_JMP : Nat := BpfCode.JMP.JA ||| BpfS.K ||| BpfClass.JMP

def JA_JMP32 : Nat := BpfCode.JMP.JA ||| BpfS.K ||| BpfClass.JMP32

def CALL_JMP : Nat := BpfCode.JMP.CALL ||| BpfS.K ||| BpfClass.JMP

/-- The 44 opcodes of the builder's conditional-jump `case` list. -/
def condJmpOpcodes : List Nat := [
  BpfCode.JMP.JEQ ||| BpfS.K ||| BpfClass.JMP,
  BpfCode.JMP.JEQ ||| BpfS.K ||| BpfClass.JMP32,
  BpfCode.JMP.JEQ ||| BpfS.X ||| BpfClass.JMP,
  BpfCode.JMP.JEQ ||| BpfS.X ||| BpfClass.JMP32,
  BpfCode.JMP.JGT ||| BpfS.K ||| BpfClass.JMP,
  BpfCode.JMP.JGT ||| BpfS.K ||| BpfClass.JMP32,
  BpfCode.JMP.JGT ||| BpfS.X ||| BpfClass.JMP,
  BpfCode.JMP.JGT ||| BpfS.X ||| BpfClass.JMP32,
  BpfCode.JMP.JGE ||| BpfS.K ||| BpfClass.JMP,
  BpfCode.JMP.JGE ||| BpfS.K ||| BpfClass.JMP32,
  BpfCode.JMP.JGE ||| BpfS.X ||| BpfClass.JMP,
  BpfCode.JMP.JGE ||| BpfS.X ||| BpfClass.JMP32,
  BpfCode.JMP.JSET ||| BpfS.K ||| BpfClass.JMP,
  BpfCode.JMP.JSET ||| BpfS.K ||| BpfClass.JMP32,
  BpfCode.JMP.JSET ||| BpfS.X ||| BpfClass.JMP,
  BpfCode.JMP.JSET ||| BpfS.X ||| BpfClass.JMP32,
  BpfCode.JMP.JNE ||| BpfS.K ||| BpfClass.JMP,
  BpfCode.JMP.JNE ||| BpfS.K ||| BpfClass.JMP32,
  BpfCode.JMP.JNE ||| BpfS.X ||| BpfClass.JMP,
  BpfCode.JMP.JNE ||| BpfS.X ||| BpfClass.JMP32,
  BpfCode.JMP.JSGT ||| BpfS.K ||| BpfClass.JMP,
  BpfCode.JMP.JSGT ||| BpfS.K ||| BpfClass.JMP32,
  BpfCode.JMP.JSGT ||| BpfS.X ||| BpfClass.JMP,
  BpfCode.JMP.JSGT ||| BpfS.X ||| BpfClass.JMP32,
  BpfCode.JMP.JSGE ||| BpfS.K ||| BpfClass.JMP,
  BpfCode.JMP.JSGE ||| BpfS.K ||| BpfClass.JMP32,
  BpfCode.JMP.JSGE ||| BpfS.X ||| BpfClass.JMP,
  BpfCode.JMP.JSGE ||| BpfS.X ||| BpfClass.JMP32,
  BpfCode.JMP.JLT ||| BpfS.K ||| BpfClass.JMP,
  BpfCode.JMP.JLT ||| BpfS.K ||| BpfClass.JMP32,
  BpfCode.JMP.JLT ||| BpfS.X ||| BpfClass.JMP,
  BpfCode.JMP.JLT ||| BpfS.X ||| BpfClass.JMP32,
  BpfCode.JMP.JLE ||| BpfS.K ||| BpfClass.JMP,
  BpfCode.JMP.JLE ||| BpfS.K ||| BpfClass.JMP32,
  BpfCode.JMP.JLE ||| BpfS.X ||| BpfClass.JMP,
  BpfCode.JMP.JLE ||| BpfS.X ||| BpfClass.JMP32,
  BpfCode.JMP.JSLT ||| BpfS.K ||| BpfClass.JMP,
  BpfCode.JMP.JSLT ||| BpfS.K ||| BpfClass.JMP32,
  BpfCode.JMP.JSLT ||| BpfS.X ||| BpfClass.JMP,
  BpfCode.JMP.JSLT ||| BpfS.X ||| BpfClass.JMP32,
  BpfCode.JMP.JSLE ||| BpfS.K ||| BpfClass.JMP,
  BpfCode.JMP.JSLE ||| BpfS.K ||| BpfClass.JMP32,
  BpfCode.JMP.JSLE ||| BpfS.X ||| BpfClass.JMP,
  BpfCode.JMP.JSLE ||| BpfS.X ||| BpfClass.JMP32]

/-- The `for idx in range(start_idx, len(instructions))` loop body of
`get_blocks_tree`.  Recursion is structural on `fuel` (one unit per loop
iteration or recursive descent); `steps` counts the remaining loop
iterations, so `steps = 0` is the loop running off the end
(`raise Exception("unreachable")`).  A jump recurses through the inlined
body of `buildTree` (the `if ... ∈ seen` guard with the copied `seen`). -/
def buildLoop (instructions : List Instruction) :
    (fuel : Nat) → (start_idx : Int) → (seen : List Int) →
    (tr : List (Int × Int)) → (idx : Int) → (steps : Nat) → BuildRes
  | 0, _, _, _, _, _ => .outOfFuel
  | fuel + 1, start_idx, seen, tr, idx, steps =>
    match steps with
    | 0 => .err .unreachable
    | steps + 1 =>
      match pyGet instructions idx with
      | none => .err .indexError
      | some ins =>
        if ins.opcode = EXIT_JMP then
          .ok (.mk0 start_idx idx) (tr ++ [(start_idx, idx)])
        else if ins.opcode = JA_JMP then
          let jump_to := idx + ins.off + 1
          match (if jump_to ∈ seen then .err .loopDetected
            else buildLoop instructions fuel jump_to (jump_to :: seen) [] jump_to
              (((instructions.length : Int) - jump_to).toNat)) with
          | .ok child ctr => .ok (.mk1 start_idx idx child) (tr ++ [(start_idx, idx)] ++ ctr)
          | e => e
        else if ins.opcode = JA_JMP32 then
          let jump_to := idx + ins.imm + 1
          match (if jump_to ∈ seen then .err .loopDetected
            else buildLoop instructions fuel jump_to (jump_to :: seen) [] jump_to
              (((instructions.length : Int) - jump_to).toNat)) with
          | .ok child ctr => .ok (.mk1 start_idx idx child) (tr ++ [(start_idx, idx)] ++ ctr)
          | e => e
        else if ins.opcode = CALL_JMP then
          if ins.src = 1 then
            let jump_to := idx + ins.imm + 1
            match (if jump_to ∈ seen then .err .loopDetected
              else buildLoop instructions fuel jump_to (jump_to :: seen) [] jump_to
                (((instructions.length : Int) - jump_to).toNat)) with
            | .ok child ctr => .ok (.mk1 start_idx idx child) (tr ++ [(start_idx, idx)] ++ ctr)
            | e => e
          else
            buildLoop instructions fuel start_idx seen (tr ++ [(start_idx, idx)]) (idx + 1) steps
        else if ins.opcode ∈ condJmpOpcodes then
          let jump_if := idx + ins.off + 1
          let jump_else := idx + 1
          match (if jump_if ∈ seen then .err .loopDetected
            else buildLoop instructions fuel jump_if (jump_if :: seen) [] jump_if
              (((instructions.length : Int) - jump_if).toNat)) with
          | .ok cIf trIf =>
            match (if jump_else ∈ seen then .err .loopDetected
              else buildLoop instructions fuel jump_else (jump_else :: seen) [] jump_else
                (((instructions.length : Int) - jump_else).toNat)) with
            | .ok cElse trElse =>
              .ok (.mk2 start_idx idx cIf cElse) (tr ++ [(start_idx, idx)] ++ trIf ++ trElse)
            | e => e
          | e => e
        else if ins.opcode % 8 = BpfClass.JMP ∨ ins.opcode % 8 = BpfClass.JMP32 then
          .err .uncaughtOpcode
        else
          buildLoop instructions fuel start_idx seen tr (idx + 1) steps

/-- `get_blocks_tree(instructions, start_idx, seen)`: fail on a revisited
start index ("detected loop"), otherwise run the loop from `start_idx` with
`seen + {start_idx}` (the recursive calls in `buildLoop` inline exactly this
body). -/
def buildTree (instructions : List Instruction) (fuel : Nat) (start_idx : Int)
    (seen : List Int) : BuildRes :=
  if start_idx ∈ seen then .err .loopDetected
  else buildLoop instructions fuel start_idx (start_idx :: seen) [] start_idx
    (((instructions.length : Int) - start_idx).toNat)

/-- `get_blocks_tree(instructions)` with the default `start_idx=0`,
`seen=∅`. -/
def get_blocks_tree (instructions : List Instruction) (fuel : Nat) : BuildRes :=
  buildTree instructions fuel 0 []

/-! ## C5: the CFG builder and memoization -/

/-- Append-monotonicity of `List.Subperm`. -/
theorem subperm_append_both {l1 l2 r1 r2 : List (Int × Int)}
    (h1 : List.Subperm l1 r1) (h2 : List.Subperm l2 r2) :
    List.Subperm (l1 ++ l2) (r1 ++ r2) :=
  ((List.subperm_append_right l2).mpr h1).trans ((List.subperm_append_left r1).mpr h2)

/-- Every successful run of the builder loop appends a suffix to the
construction trace, and the (start, end) node multiset of the returned tree
embeds into that suffix: each node of the tree is a distinct `Block(...)`
construction event. -/
theorem buildLoop_nodes_subperm (I : List Instruction) :
    ∀ fuel start seen tr idx steps b tr',
      buildLoop I fuel start seen tr idx steps = .ok b tr' →
      ∃ sfx, tr' = tr ++ sfx ∧ List.Subperm b.nodes sfx := by
  intro fuel
  induction fuel with
  | zero =>
    intro start seen tr idx steps b tr' h
    exact (BuildRes.noConfusion h)
  | succ fuel ih =>
    intro start seen tr idx steps b tr' h
    match steps with
    | 0 => exact (BuildRes.noConfusion h)
    | steps + 1 =>
      simp only [buildLoop] at h
      rcases hpg : pyGet I idx with _ | ins <;> simp only [hpg] at h
      · exact (BuildRes.noConfusion h)
      have hchild : ∀ target child ctr,
          (if target ∈ seen then BuildRes.err .loopDetected
            else buildLoop I fuel target (target :: seen) [] target
              (((I.length : Int) - target).toNat)) = .ok child ctr →
          List.Subperm child.nodes ctr := by
        intro target child ctr hc
        by_cases hmem : target ∈ seen
        · rw [if_pos hmem] at hc
          exact (BuildRes.noConfusion hc)
        · rw [if_neg hmem] at hc
          obtain ⟨sfx, hsfx, hsub⟩ := ih target (target :: seen) [] target _ child ctr hc
          simpa [hsfx] using hsub
      by_cases hexit : ins.opcode = EXIT_JMP
      · rw [if_pos hexit] at h
        cases h
        exact ⟨[(start, idx)], rfl, List.Subperm.refl _⟩
      rw [if_neg hexit] at h
      by_cases hja : ins.opcode = JA_JMP
      · rw [if_pos hja] at h
        split at h
        · cases h
          rename_i child ctr heq
          refine ⟨(start, idx) :: ctr, by simp, ?_⟩
          exact (List.subperm_cons _).mpr (hchild _ _ _ heq)
        · rename_i e heq hne
          exact absurd h (hne _ _)
      rw [if_neg hja] at h
      by_cases hja32 : ins.opcode = JA_JMP32
      · rw [if_pos hja32] at h
        split at h
        · cases h
          rename_i child ctr heq
          refine ⟨(start, idx) :: ctr, by simp, ?_⟩
          exact (List.subperm_cons _).mpr (hchild _ _ _ heq)
        · rename_i e heq hne
          exact absurd h (hne _ _)
      rw [if_neg hja32] at h
      by_cases hcall : ins.opcode = CALL_JMP
      · rw [if_pos hcall] at h
        by_cases hsrc : ins.src = 1
        · rw [if_pos hsrc] at h
          split at h
          · cases h
            rename_i child ctr heq
            refine ⟨(start, idx) :: ctr, by simp, ?_⟩
            exact (List.subperm_cons _).mpr (hchild _ _ _ heq)
          · rename_i e heq hne
            exact absurd h (hne _ _)
        · rw [if_neg hsrc] at h
          obtain ⟨sfx, hsfx, hsub⟩ := ih start seen (tr ++ [(start, idx)]) (idx + 1) steps b tr' h
          exact ⟨(start, idx) :: sfx, by simp [hsfx], List.Subperm.cons_right _ hsub⟩
      rw [if_neg hcall] at h
      by_cases hcond : ins.opcode ∈ condJmpOpcodes
      · rw [if_pos hcond] at h
        split at h
        · rename_i cIf trIf heqIf
          split at h
          · cases h
            rename_i cElse trElse heqElse
            refine ⟨(start, idx) :: (trIf ++ trElse), by simp, ?_⟩
            exact (List.subperm_cons _).mpr
              (subperm_append_both (hchild _ _ _ heqIf) (hchild _ _ _ heqElse))
          · rename_i e heq hne
            exact absurd h (hne _ _)
        · rename_i e heq hne
          exact absurd h (hne _ _)
      rw [if_neg hcond] at h
      by_cases hjcls : ins.opcode % 8 = BpfClass.JMP ∨ ins.opcode % 8 = BpfClass.JMP32
      · rw [if_pos hjcls] at h
        exact (BuildRes.noConfusion h)
      · rw [if_neg hjcls] at h
        exact ih start seen tr (idx + 1) steps b tr' h

/-- C5 (amended): `get_blocks_tree` performs no memoization. Every node of a
successfully built tree corresponds to a distinct `Block(...)` construction
event: the multiset of the tree's (start, end) node pairs embeds (as a
sub-permutation) into the chronological list of constructions, so a merge
point reached by two edges is constructed twice and the result is a tree of
duplicated blocks, not a graph with shared merge points. -/
theorem c5_no_memoization_tree_nodes_in_trace
    (I : List Instruction) (fuel : Nat) (start : Int) (seen : List Int)
    (b : BTree) (tr : List (Int × Int))
    (h : buildTree I fuel start seen = .ok b tr) :
    List.Subperm b.nodes tr := by
  unfold buildTree at h
  by_cases hmem : start ∈ seen
  · rw [if_pos hmem] at h
    exact (BuildRes.noConfusion h)
  · rw [if_neg hmem] at h
    obtain ⟨sfx, hsfx, hsub⟩ :=
      buildLoop_nodes_subperm I _ start (start :: seen) [] start _ b tr h
    simpa [hsfx] using hsub

/-- Diamond program: `jeq r1, r0, +1` at 0 (successors 2 and 1), `ja +0`
at 1 (successor 2), `exit` at 2 — two distinct edges target index 2. -/
def c5prog : List Instruction :=
  [⟨0x15, 1, 0, 1, 0⟩, ⟨0x05, 0, 0, 0, 0⟩, ⟨0x95, 0, 0, 0, 0⟩]

/-- The tree `get_blocks_tree` builds for `c5prog`: the merge block (2, 2)
appears as two structurally-equal but separately-built subtrees. -/
def c5tree : BTree := .mk2 0 0 (.mk0 2 2) (.mk1 1 1 (.mk0 2 2))

/-- The `Block(...)` construction events for `c5prog`, in order. -/
def c5trace : List (Int × Int) := [(0, 0), (2, 2), (1, 1), (2, 2)]

/-- C5 counterexample: on the diamond program the shared merge target
(instruction 2) is constructed twice — the builder returns a tree with two
copies of block (2, 2), not one shared block object, refuting memoization
by start index. -/
theorem c5_merge_block_built_twice :
    get_blocks_tree c5prog 10 = .ok c5tree c5trace
    ∧ c5trace.count (2, 2) = 2 := by
  exact ⟨by decide, by decide⟩

/-- C5 witness: the amended theorem applied to the diamond program. -/
theorem c5_no_memoization_tree_nodes_in_trace_witness :
    buildTree c5prog 10 0 [] = .ok c5tree c5trace
    ∧ List.Subperm c5tree.nodes c5trace :=
  ⟨by decide, c5_no_memoization_tree_nodes_in_trace c5prog 10 0 [] c5tree c5trace (by decide)⟩

/-! ## C6: coverage and edge-target consistency of the built CFG -/

/-- The spec's edge-target property, stated over the builder's output tree:
every block's terminator is consistent with its successors — a leaf ends in
`EXIT`, a one-successor block ends in `JA`/`JA32`/`CALL src=1` and its child
starts exactly at the jump target, and a two-successor block ends in a
conditional jump with the if-child starting at `end + off + 1` and the
else-child at `end + 1` (so every jump target is a block's first index). -/
def edgesOk (I : List Instruction) : BTree → Bool
  | .mk0 _ e =>
    match pyGet I e with
    | some ins => decide (ins.opcode = EXIT_JMP)
    | none => false
  | .mk1 _ e child =>
    (match pyGet I e with
      | some ins =>
        if ins.opcode = JA_JMP then decide (child.startI = e + ins.off + 1)
        else if ins.opcode = JA_JMP32 then decide (child.startI = e + ins.imm + 1)
        else if ins.opcode = CALL_JMP then
          decide (ins.src = 1) && decide (child.startI = e + ins.imm + 1)
        else false
      | none => false) && edgesOk I child
  | .mk2 _ e cIf cElse =>
    (match pyGet I e with
      | some ins =>
        decide (ins.opcode ∈ condJmpOpcodes) &&
          decide (cIf.startI = e + ins.off + 1) && decide (cElse.startI = e + 1)
      | none => false) && edgesOk I cIf && edgesOk I cElse

/-- Every tree the builder loop returns starts at the requested index and
satisfies `edgesOk`. -/
theorem buildLoop_edgesOk (I : List Instruction) :
    ∀ fuel start seen tr idx steps b tr',
      buildLoop I fuel start seen tr idx steps = .ok b tr' →
      b.startI = start ∧ edgesOk I b = true := by
  intro fuel
  induction fuel with
  | zero =>
    intro start seen tr idx steps b tr' h
    exact (BuildRes.noConfusion h)
  | succ fuel ih =>
    intro start seen tr idx steps b tr' h
    match steps with
    | 0 => exact (BuildRes.noConfusion h)
    | steps + 1 =>
      simp only [buildLoop] at h
      rcases hpg : pyGet I idx with _ | ins <;> simp only [hpg] at h
      · exact (BuildRes.noConfusion h)
      have hchild : ∀ target child ctr,
          (if target ∈ seen then BuildRes.err .loopDetected
            else buildLoop I fuel target (target :: seen) [] target
              (((I.length : Int) - target).toNat)) = .ok child ctr →
          child.startI = target ∧ edgesOk I child = true := by
        intro target child ctr hc
        by_cases hmem : target ∈ seen
        · rw [if_pos hmem] at hc
          exact (BuildRes.noConfusion hc)
        · rw [if_neg hmem] at hc
          exact ih target (target :: seen) [] target _ child ctr hc
      by_cases hexit : ins.opcode = EXIT_JMP
      · rw [if_pos hexit] at h
        cases h
        exact ⟨rfl, by simp [edgesOk, hpg, hexit]⟩
      rw [if_neg hexit] at h
      by_cases hja : ins.opcode = JA_JMP
      · rw [if_pos hja] at h
        split at h
        · cases h
          rename_i child ctr heq
          obtain ⟨hst, hed⟩ := hchild _ _ _ heq
          exact ⟨rfl, by simp [edgesOk, hpg, hja, hst, hed]⟩
        · rename_i e heq hne
          exact absurd h (hne _ _)
      rw [if_neg hja] at h
      by_cases hja32 : ins.opcode = JA_JMP32
      · rw [if_pos hja32] at h
        split at h
        · cases h
          rename_i child ctr heq
          obtain ⟨hst, hed⟩ := hchild _ _ _ heq
          exact ⟨rfl, by simp [edgesOk, hpg, hja32, hst, hed, (by decide : JA_JMP32 ≠ JA_JMP)]⟩
        · rename_i e heq hne
          exact absurd h (hne _ _)
      rw [if_neg hja32] at h
      by_cases hcall : ins.opcode = CALL_JMP
      · rw [if_pos hcall] at h
        by_cases hsrc : ins.src = 1
        · rw [if_pos hsrc] at h
          split at h
          · cases h
            rename_i child ctr heq
            obtain ⟨hst, hed⟩ := hchild _ _ _ heq
            exact ⟨rfl, by simp [edgesOk, hpg, hcall, hsrc, hst, hed,
              (by decide : CALL_JMP ≠ JA_JMP), (by decide : CALL_JMP ≠ JA_JMP32)]⟩
          · rename_i e heq hne
            exact absurd h (hne _ _)
        · rw [if_neg hsrc] at h
          exact ih start seen (tr ++ [(start, idx)]) (idx + 1) steps b tr' h
      rw [if_neg hcall] at h
      by_cases hcond : ins.opcode ∈ condJmpOpcodes
      · rw [if_pos hcond] at h
        split at h
        · rename_i cIf trIf heqIf
          split at h
          · cases h
            rename_i cElse trElse heqElse
            obtain ⟨hstIf, hedIf⟩ := hchild _ _ _ heqIf
            obtain ⟨hstElse, hedElse⟩ := hchild _ _ _ heqElse
            exact ⟨rfl, by simp [edgesOk, hpg, hcond, hstIf, hedIf, hstElse, hedElse]⟩
          · rename_i e heq hne
            exact absurd h (hne _ _)
        · rename_i e heq hne
          exact absurd h (hne _ _)
      rw [if_neg hcond] at h
      by_cases hjcls : ins.opcode % 8 = BpfClass.JMP ∨ ins.opcode % 8 = BpfClass.JMP32
      · rw [if_pos hjcls] at h
        exact (BuildRes.noConfusion h)
      · rw [if_neg hjcls] at h
        exact ih start seen tr (idx + 1) steps b tr' h

/-- C6 (amended): only the edge-target half of the claim holds. Every tree
`get_blocks_tree` returns starts at index 0 and satisfies `edgesOk`: every
jump target equals the first instruction index of the corresponding child
block. The coverage half (union of block ranges = [0, N) with no gap) is
false — see the counterexample. -/
theorem c6_edge_targets_are_block_starts
    (I : List Instruction) (fuel : Nat) (b : BTree) (tr : List (Int × Int))
    (h : get_blocks_tree I fuel = .ok b tr) :
    b.startI = 0 ∧ edgesOk I b = true := by
  unfold get_blocks_tree buildTree at h
  rw [if_neg (by simp)] at h
  exact buildLoop_edgesOk I fuel 0 [0] [] 0 _ b tr h

/-- Gap program: `ja +1` at 0 (jumping over index 1), `exit` at 1 (dead),
`exit` at 2. -/
def c6prog : List Instruction :=
  [⟨0x05, 0, 0, 1, 0⟩, ⟨0x95, 0, 0, 0, 0⟩, ⟨0x95, 0, 0, 0, 0⟩]

/-- The tree built for `c6prog`: blocks (0, 0) and (2, 2) only. -/
def c6tree : BTree := .mk1 0 0 (.mk0 2 2)

/-- C6 counterexample: for the 3-instruction gap program the builder
succeeds, yet no block range of the result covers instruction index 1 — the
union of block ranges is {0, 2}, not [0, 3): the coverage claim is false. -/
theorem c6_coverage_gap_counterexample :
    get_blocks_tree c6prog 20 = .ok c6tree [(0, 0), (2, 2)]
    ∧ (∀ p ∈ c6tree.nodes, ¬(p.1 ≤ 1 ∧ 1 ≤ p.2))
    ∧ c6prog.length = 3 := by
  refine ⟨by decide, by decide, by decide⟩

/-- C6 witness: the amended theorem applied to the gap program. -/
theorem c6_edge_targets_are_block_starts_witness :
    get_blocks_tree c6prog 20 = .ok c6tree [(0, 0), (2, 2)]
    ∧ c6tree.startI = 0 ∧ edgesOk c6prog c6tree = true :=
  ⟨by decide, c6_edge_targets_are_block_starts c6prog 20 c6tree [(0, 0), (2, 2)] (by decide)⟩

/-! ## C4: is loop detection fatal? -/

/-- `ja -1` at index 0: a back-edge at the first block. -/
def c4loopProg : List Instruction := [⟨0x05, 0, 0, -1, 0⟩]

/-- `jeq r1, 0, off=-1` (self back-edge) then `exit`, for the DFS half. -/
def c4prog : List Instruction := [⟨0x15, 1, 0, -1, 0⟩, ⟨0x95, 0, 0, 0, 0⟩]

/-- The block graph with a back-edge at the first block. -/
def c4graph : BlockGraph := [⟨0, 0, [0, 1]⟩, ⟨1, 1, []⟩]

/-- C4 counterexample: on a program whose control flow has a back-edge at
the first block, `get_blocks_tree` raises ("detected loop") — the analysis
is aborted by an exception before any cost is computed, so loop detection
is fatal, not a skipped-iteration diagnostic. -/
theorem c4_builder_loop_is_fatal_counterexample :
    get_blocks_tree c4loopProg 10 = .err .loopDetected := by decide

/-- C4 (amended): loop handling is split. In the CFG builder
(`get_blocks_tree`) a back-edge is FATAL: any program starting with `ja -1`
makes the builder raise the loop exception for every fuel. Only the later
cost walk `dfs_blocks` treats a back-edge non-fatally: on the cyclic block
graph `c4graph` it cuts the revisited path and returns the single-iteration
cost 9 — but a looping program never reaches it, because the builder runs
first. -/
theorem c4_loop_fatal_in_builder_nonfatal_in_dfs :
    (∀ (I : List Instruction) (ins : Instruction) (fuel : Nat),
        pyGet I 0 = some ins → ins.opcode = JA_JMP → ins.off = -1 →
        buildTree I (fuel + 1) 0 [] = .err .loopDetected)
    ∧ dfs_blocks c4prog c4graph 10 = .ok 9 := by
  constructor
  · intro I ins fuel h0 hop hoff
    have hne : I[(0 : Int).toNat]? = some ins := by simpa [pyGet] using h0
    have hlen : 0 < I.length := by
      rcases I with _ | ⟨a, l⟩
      · simp at hne
      · simp
    unfold buildTree
    rw [if_neg (by simp)]
    have hsteps : (((I.length : Int) - 0).toNat) = (I.length - 1) + 1 := by omega
    rw [hsteps]
    simp only [buildLoop, h0]
    rw [hop, hoff]
    rw [if_neg (by decide : ¬(JA_JMP = EXIT_JMP)), if_pos rfl]
    rw [if_pos (show (0 : Int) + (-1) + 1 ∈ ([0] : List Int) by decide)]
  · decide

/-- C4 witness: the builder half of the amended theorem applied to
`c4loopProg`. -/
theorem c4_loop_fatal_in_builder_nonfatal_in_dfs_witness :
    pyGet c4loopProg 0 = some ⟨0x05, 0, 0, -1, 0⟩
    ∧ (⟨0x05, 0, 0, -1, 0⟩ : Instruction).opcode = JA_JMP
    ∧ (⟨0x05, 0, 0, -1, 0⟩ : Instruction).off = -1
    ∧ buildTree c4loopProg (9 + 1) 0 [] = .err .loopDetected :=
  ⟨by decide, by decide, by decide,
    c4_loop_fatal_in_builder_nonfatal_in_dfs.1 c4loopProg ⟨0x05, 0, 0, -1, 0⟩ 9
      (by decide) (by decide) (by decide)⟩
